import Mathlib

/- Verification development for the beribit_btc monitor.

   Shallow embedding of the three core modules:
   * `state_store.py`   — the retention-pruned time-series store,
   * `monitor.py`       — the alert evaluator with cooldown deduplication,
   * `deribit_client.py`— the JSON-RPC client with retries and re-authentication.

   Timestamps and metric magnitudes (Python floats) are modelled as rationals;
   the durable file write in `StateStore.save_state` is abstracted away (the
   in-memory dictionary after a save is what the model returns), and the
   network is an oracle giving the outcome of each transmission attempt. -/

/-- A value stored in a series: either a bare number (the `"dvol"` series) or
the structured record the evaluator stores per instrument
(`{gamma, vega, delta, direction, size}`). -/
inductive StoreValue where
  | num (q : ℚ)
  | posRecord (gamma vega delta : ℚ) (direction : String) (size : ℚ)
deriving DecidableEq, Repr

/-- A `{value, timestamp}` record as kept in a series history. -/
structure Entry where
  value : StoreValue
  timestamp : ℚ
deriving DecidableEq, Repr

/-- One value of the state dictionary `StateStore.state`:
* `series latest history` — the `{"latest": ..., "history": [...]}` shape
  written by `StateStore.set` (`latest = none` models a dict with a
  `"history"` key but no `"latest"` key);
* `single e` — a bare `{value, timestamp}` record (legacy single entry);
* `alertTable t` — the dictionary held under the `"last_alert_times"` key;
* `legacy` — any non-dict value (old format). -/
inductive StoredData where
  | series (latest : Option Entry) (history : List Entry)
  | single (e : Entry)
  | alertTable (t : List (String × ℚ))
  | legacy
deriving DecidableEq, Repr

/-- The in-memory state dictionary, keyed by string (Python `dict` preserves
insertion order; lookups see the first binding). -/
abbrev Store := List (String × StoredData)

/-- Dictionary lookup (`d.get(k)` / `d[k]`). -/
def alookup {α : Type} (m : List (String × α)) (k : String) : Option α :=
  match m with
  | [] => none
  | (k', v) :: rest => if k' = k then some v else alookup rest k

/-- Dictionary assignment `d[k] = v`: replaces the value in place if the key
is present, appends a new binding otherwise. -/
def aupdate {α : Type} (m : List (String × α)) (k : String) (v : α) :
    List (String × α) :=
  match m with
  | [] => [(k, v)]
  | (k', v') :: rest => if k' = k then (k, v) :: rest else (k', v') :: aupdate rest k v

/-- `key.startswith("_")`. -/
def startsWithUnderscore (s : String) : Bool :=
  match s.data with
  | [] => false
  | c :: _ => c = '_'

/-- `StateStore._cleanup_old_data`, applied to one binding.  Keys beginning
with `"_"` and the `"last_alert_times"` key are skipped; a series has its
history filtered to `timestamp ≥ cutoff` and is dropped entirely when the
filtered history is empty and no `"latest"` marker exists; a bare single
record is dropped when it is older than the cutoff. -/
def cleanupValue (cutoff : ℚ) (key : String) (v : StoredData) : Option StoredData :=
  if startsWithUnderscore key ∨ key = "last_alert_times" then some v
  else
    match v with
    | .series latest history =>
        let history' := history.filter (fun item => cutoff ≤ item.timestamp)
        if history' = [] ∧ latest = none then none else some (.series latest history')
    | .single e => if e.timestamp < cutoff then none else some (.single e)
    | .alertTable t => some (.alertTable t)
    | .legacy => some .legacy

/-- `StateStore._cleanup_old_data` over the whole state, with
`cutoff = current_time - max_history_minutes * 60`. -/
def cleanupOldData (cutoff : ℚ) (m : Store) : Store :=
  m.filterMap (fun kv => (cleanupValue cutoff kv.1 kv.2).map (fun v => (kv.1, v)))

/-- `StateStore.save_state`: prunes expired data, then persists (the file
write is abstracted; the function returns the cleaned in-memory state). -/
def saveState (maxHistoryMinutes : ℚ) (now : ℚ) (m : Store) : Store :=
  cleanupOldData (now - maxHistoryMinutes * 60) m

/-- The comparison key of `sorted(history, key=lambda x: x.get("timestamp", 0))`. -/
def tsLe (a b : Entry) : Prop := a.timestamp ≤ b.timestamp

instance : DecidableRel tsLe :=
  fun a b => inferInstanceAs (Decidable (a.timestamp ≤ b.timestamp))

instance : IsTotal Entry tsLe := ⟨fun a b => le_total a.timestamp b.timestamp⟩

instance : IsTrans Entry tsLe := ⟨fun _ _ _ h1 h2 => le_trans h1 h2⟩

/-- `StateStore.get_latest`: with a `"history"` key present, the last element
of the history stably sorted by timestamp (or absent if the history is
empty — the cached `"latest"` field is never read); a bare single record is
returned as is.  Python's `sorted` is a stable ascending sort, modelled by
`List.insertionSort`. -/
def getLatest (m : Store) (key : String) : Option Entry :=
  match alookup m key with
  | none => none
  | some (.series _ history) =>
      if history = [] then none
      else (List.insertionSort tsLe history).getLast?
  | some (.single e) => some e
  | some (.alertTable _) => none
  | some .legacy => none

/-- `StateStore.get_history key minutes` at time `now`: the entries with
`timestamp ≥ now - minutes*60`. -/
def getHistory (m : Store) (key : String) (minutes : ℚ) (now : ℚ) : List Entry :=
  match alookup m key with
  | none => []
  | some (.series _ history) =>
      history.filter (fun item => now - minutes * 60 ≤ item.timestamp)
  | some (.single e) => if now - minutes * 60 ≤ e.timestamp then [e] else []
  | some (.alertTable _) => []
  | some .legacy => []

/-- `StateStore.set key value ts` followed by `save_state` at time `now`.
A fresh key gets `{"latest": entry, "history": [entry]}`; an existing dict
value has entries within 1 second of `ts` coalesced away, the new entry
appended and the history re-sorted by timestamp; a non-dict legacy value is
replaced wholesale.  (A single `{value, timestamp}` record is a dict in the
source and is upgraded in place, keeping two stale top-level fields that no
reader ever consults once a `"history"` key exists; the model drops them.
The evaluator never calls `set` on the `"last_alert_times"` key, whose dict
branch is modelled like a fresh structure.) -/
def storeSet (maxHistoryMinutes : ℚ) (m : Store) (key : String) (value : StoreValue)
    (ts : ℚ) (now : ℚ) : Store :=
  let entry : Entry := ⟨value, ts⟩
  let m1 :=
    match alookup m key with
    | none => aupdate m key (.series (some entry) [entry])
    | some (.series _ history) =>
        let h1 := history.filter (fun h => 1 < |h.timestamp - ts|)
        let h2 := List.insertionSort tsLe (h1 ++ [entry])
        aupdate m key (.series (some entry) h2)
    | some (.single _) => aupdate m key (.series (some entry) [entry])
    | some (.alertTable _) => aupdate m key (.series (some entry) [entry])
    | some .legacy => aupdate m key (.series (some entry) [entry])
  saveState maxHistoryMinutes now m1

/-- The dictionary stored under `"last_alert_times"` (empty if absent). -/
def alertTableOf (m : Store) : List (String × ℚ) :=
  match alookup m "last_alert_times" with
  | some (.alertTable t) => t
  | _ => []

/-- `StateStore.get_last_alert_time`. -/
def getLastAlertTime (m : Store) (alertKey : String) : Option ℚ :=
  match alookup m "last_alert_times" with
  | some (.alertTable t) => alookup t alertKey
  | _ => none

/-- `StateStore.set_last_alert_time` followed by its `save_state`, at time
`now`. -/
def setLastAlertTime (maxHistoryMinutes : ℚ) (m : Store) (alertKey : String)
    (ts : ℚ) (now : ℚ) : Store :=
  let m1 := aupdate m "last_alert_times" (.alertTable (aupdate (alertTableOf m) alertKey ts))
  saveState maxHistoryMinutes now m1

/-- The entries a key currently retains (its history, or the bare record). -/
def retainedEntries (m : Store) (k : String) : List Entry :=
  match alookup m k with
  | some (.series _ h) => h
  | some (.single e) => [e]
  | _ => []

/- ------------------------------------------------------------------ -/
/- Alert evaluator (monitor.py)                                       -/
/- ------------------------------------------------------------------ -/

/-- The monitor constructs its store with `StateStore(max_history_minutes=60)`. -/
def monitorMaxHistoryMinutes : ℚ := 60

/-- The position data consumed by the evaluator (`OptionPosition`). -/
structure OptionPosition where
  instrumentName : String
  direction : String
  size : ℚ
  gamma : ℚ
  delta : ℚ
  vega : ℚ
deriving DecidableEq, Repr

/-- Configuration fields consumed by `Monitor` (source defaults noted). -/
structure MonitorConfig where
  cooldownSeconds : ℚ           -- alert.cooldown_seconds, default 300
  enableAlert : Bool            -- alert.enable_alert, default true
  gammaLevel1 : ℚ               -- gamma.level_1_light,  default 0.0001
  gammaLevel2 : ℚ               -- gamma.level_2_medium, default 0.0005
  gammaLevel3 : ℚ               -- gamma.level_3_heavy,  default 0.001
  vegaLevel1 : ℚ                -- vega.level_1_light,   default 10
  vegaLevel2 : ℚ                -- vega.level_2_medium,  default 30
  vegaLevel3 : ℚ                -- vega.level_3_heavy,   default 50
  dvolAbsThreshold : ℚ          -- dvol_value.abs_threshold, default 60
  dvolPctChange5m : ℚ           -- dvol_value.pct_change_5m, default 0.05
  dvolAbsChange5m : ℚ           -- dvol_value.abs_change_5m, default 5
  dvolSpecificValues : List ℚ   -- dvol_value.specific_values, default []
  dvolSpecificTolerance : ℚ     -- dvol_value.specific_value_tolerance, default 0.5
deriving DecidableEq, Repr

/-- Severity tiers of the staged level alerts. -/
inductive Severity where
  | light
  | medium
  | heavy
deriving DecidableEq, Repr

/-- The severity label interpolated into the alert key (the source uses the
Chinese labels 轻度/中度/重度). -/
def severityLabel : Severity → String
  | .light => "轻度"
  | .medium => "中度"
  | .heavy => "重度"

/-- Tier height, used to state "highest matched tier". -/
def severityRank : Severity → Nat
  | .light => 1
  | .medium => 2
  | .heavy => 3

/-- The threshold attached to each tier. -/
def levelThreshold (level1 level2 level3 : ℚ) : Severity → ℚ
  | .light => level1
  | .medium => level2
  | .heavy => level3

/-- The staged classification shared by `Monitor._check_gamma_levels` and
`Monitor._check_vega_threshold`: `heavy` if the magnitude reaches `level3`,
else `medium` if it reaches `level2`, else `light` if it reaches `level1`,
else no alert. -/
def classifyLevel (magnitude level1 level2 level3 : ℚ) : Option Severity :=
  if level3 ≤ magnitude then some .heavy
  else if level2 ≤ magnitude then some .medium
  else if level1 ≤ magnitude then some .light
  else none

/-- A delivered alert, identified structurally. -/
inductive AlertEvent where
  | gammaLevel (instrument : String) (severity : Severity)
  | vegaLevel (instrument : String) (severity : Severity)
  | dvolSpecific (target : ℚ)
  | dvolAbsValue
  | dvolChange
deriving DecidableEq, Repr

/-- `Monitor._should_alert`: eligible when the store has no last firing time
for the key, or when `current_time - last ≥ cooldown_seconds`. -/
def shouldAlert (cfg : MonitorConfig) (m : Store) (alertKey : String) (t : ℚ) : Bool :=
  match getLastAlertTime m alertKey with
  | none => true
  | some last => cfg.cooldownSeconds ≤ t - last

/-- The notify-with-cooldown step inlined at every alert site of
`monitor.py`: if the key is eligible and alerting is enabled, deliver;
record `current_time` as the firing time only on a successful delivery
(`set_last_alert_time` saves the store, at time `t`).  Returns the new
store and whether the alert was delivered. -/
def tryAlert (cfg : MonitorConfig) (m : Store) (alertKey : String) (t : ℚ)
    (deliveryOk : Bool) : Store × Bool :=
  if shouldAlert cfg m alertKey t then
    if cfg.enableAlert then
      if deliveryOk then
        (setLastAlertTime monitorMaxHistoryMinutes m alertKey t t, true)
      else (m, false)
    else (m, false)
  else (m, false)

/-- The alert key `f"{instrument}_gamma_level_{severity}"`. -/
def gammaAlertKey (instrument : String) (s : Severity) : String :=
  instrument ++ "_gamma_level_" ++ severityLabel s

/-- The alert key `f"{instrument}_vega_level_{severity}"`. -/
def vegaAlertKey (instrument : String) (s : Severity) : String :=
  instrument ++ "_vega_level_" ++ severityLabel s

/-- `Monitor._check_gamma_levels`: classify `abs(gamma)` against the three
gamma thresholds and, when a tier matches, run the cooldown-gated
notification.  `deliver` is the external notification channel's outcome. -/
def checkGammaLevels (cfg : MonitorConfig) (pos : OptionPosition) (t : ℚ) (m : Store)
    (deliver : AlertEvent → Bool) : Store × List AlertEvent :=
  match classifyLevel |pos.gamma| cfg.gammaLevel1 cfg.gammaLevel2 cfg.gammaLevel3 with
  | none => (m, [])
  | some sev =>
      let p := tryAlert cfg m (gammaAlertKey pos.instrumentName sev) t
        (deliver (.gammaLevel pos.instrumentName sev))
      (p.1, if p.2 then [AlertEvent.gammaLevel pos.instrumentName sev] else [])

/-- `Monitor._check_vega_threshold`: same staged check on `abs(vega)`. -/
def checkVegaThreshold (cfg : MonitorConfig) (pos : OptionPosition) (t : ℚ) (m : Store)
    (deliver : AlertEvent → Bool) : Store × List AlertEvent :=
  match classifyLevel |pos.vega| cfg.vegaLevel1 cfg.vegaLevel2 cfg.vegaLevel3 with
  | none => (m, [])
  | some sev =>
      let p := tryAlert cfg m (vegaAlertKey pos.instrumentName sev) t
        (deliver (.vegaLevel pos.instrumentName sev))
      (p.1, if p.2 then [AlertEvent.vegaLevel pos.instrumentName sev] else [])

/-- The record `_check_positions` stores per instrument. -/
def positionRecord (pos : OptionPosition) : StoreValue :=
  .posRecord pos.gamma pos.vega pos.delta pos.direction pos.size

/-- One iteration of the loop of `Monitor._check_positions`: with no history
in the last 5 minutes the current observation is saved first and the two
level checks still run; with history the checks run and the observation is
saved afterwards.  (The source's second emptiness test on the re-sorted
history is dead code: sorting a non-empty list is non-empty.)  No trend
comparison exists for positions. -/
def checkPosition (cfg : MonitorConfig) (m : Store) (pos : OptionPosition) (t : ℚ)
    (deliver : AlertEvent → Bool) : Store × List AlertEvent :=
  let history5 := getHistory m pos.instrumentName 5 t
  if history5 = [] then
    let m1 := storeSet monitorMaxHistoryMinutes m pos.instrumentName (positionRecord pos) t t
    let p := checkGammaLevels cfg pos t m1 deliver
    let q := checkVegaThreshold cfg pos t p.1 deliver
    (q.1, p.2 ++ q.2)
  else
    let p := checkGammaLevels cfg pos t m deliver
    let q := checkVegaThreshold cfg pos t p.1 deliver
    (storeSet monitorMaxHistoryMinutes q.1 pos.instrumentName (positionRecord pos) t t,
      p.2 ++ q.2)

/-- The comparison key of
`sorted(history_5m, key=lambda x: abs(x.get("timestamp", 0) - target_time))`. -/
def distLe (target : ℚ) (a b : Entry) : Prop :=
  |a.timestamp - target| ≤ |b.timestamp - target|

instance (target : ℚ) : DecidableRel (distLe target) :=
  fun a b => inferInstanceAs (Decidable (|a.timestamp - target| ≤ |b.timestamp - target|))

instance (target : ℚ) : IsTotal Entry (distLe target) :=
  ⟨fun a b => le_total |a.timestamp - target| |b.timestamp - target|⟩

instance (target : ℚ) : IsTrans Entry (distLe target) :=
  ⟨fun _ _ _ h1 h2 => le_trans h1 h2⟩

/-- A stored value read back as a number. -/
def asNum : StoreValue → Option ℚ
  | .num q => some q
  | _ => none

/-- The "5 minutes ago" value `_check_dvol` compares against: among the
entries of the last 5 minutes, the value of the one closest to
`current_time - 5*60` (stable sort, first encountered wins); `none` when
there is no usable history (the source then saves the current value and
returns without any check). -/
def dvolPrevious (m : Store) (t : ℚ) : Option ℚ :=
  let history5 := getHistory m "dvol" 5 t
  if history5 = [] then none
  else
    match List.insertionSort (distLe (t - 5 * 60)) history5 with
    | [] => none
    | h0 :: _ => asNum h0.value

/-- Signed percentage change, defined as `0` when `previous == 0`. -/
def pctChange (previous current : ℚ) : ℚ :=
  if previous = 0 then 0 else (current - previous) / previous

/-- Absolute change `current - previous`. -/
def absChange (previous current : ℚ) : ℚ := current - previous

/-- `should_alert_abs_value = current_dvol >= abs_value_threshold`. -/
def dvolAbsValueCheck (threshold current : ℚ) : Bool := threshold ≤ current

/-- `should_alert_change`: the percentage change magnitude strictly exceeds
`pct_change_5m` or the absolute change magnitude strictly exceeds
`abs_change_5m`. -/
def dvolChangeCheck (cfg : MonitorConfig) (previous current : ℚ) : Bool :=
  cfg.dvolPctChange5m < |pctChange previous current| ∨
    cfg.dvolAbsChange5m < |absChange previous current|

/-- The first configured target value within tolerance of the current value. -/
def matchedSpecificValue (cfg : MonitorConfig) (current : ℚ) : Option ℚ :=
  cfg.dvolSpecificValues.find? (fun tv => |current - tv| ≤ cfg.dvolSpecificTolerance)

/-- One cooldown-gated alert site: run `tryAlert` and report the delivered
alert (if any) as the structured event `ev`. -/
def alertStep (cfg : MonitorConfig) (m : Store) (key : String) (t : ℚ) (ok : Bool)
    (ev : AlertEvent) : Store × List AlertEvent :=
  let p := tryAlert cfg m key t ok
  (p.1, if p.2 then [ev] else [])

/-- The body of `Monitor._check_dvol` once a previous value is available:
the specific-value, absolute-value and 5-minute-change alerts run in that
order (each independently cooldown gated) and the current value is saved at
the end.  The numeric rendering in `f"dvol_specific_{v}"` is abstracted by
`toString`. -/
def checkDvolBody (cfg : MonitorConfig) (m : Store) (current t previous : ℚ)
    (deliver : AlertEvent → Bool) : Store × List AlertEvent :=
  let p1 :=
    match matchedSpecificValue cfg current with
    | some target =>
        alertStep cfg m ("dvol_specific_" ++ toString target) t
          (deliver (.dvolSpecific target)) (.dvolSpecific target)
    | none => (m, ([] : List AlertEvent))
  let p2 :=
    if dvolAbsValueCheck cfg.dvolAbsThreshold current then
      alertStep cfg p1.1 "dvol_abs_value" t (deliver .dvolAbsValue) .dvolAbsValue
    else (p1.1, ([] : List AlertEvent))
  let p3 :=
    if dvolChangeCheck cfg previous current then
      alertStep cfg p2.1 "dvol_change" t (deliver .dvolChange) .dvolChange
    else (p2.1, ([] : List AlertEvent))
  (storeSet monitorMaxHistoryMinutes p3.1 "dvol" (.num current) t t,
    p1.2 ++ p2.2 ++ p3.2)

/-- `Monitor._check_dvol`: with no usable history the current value is saved
and nothing is checked; otherwise the three alert checks run and the
current value is saved at the end. -/
def checkDvol (cfg : MonitorConfig) (m : Store) (current : ℚ) (t : ℚ)
    (deliver : AlertEvent → Bool) : Store × List AlertEvent :=
  match dvolPrevious m t with
  | none => (storeSet monitorMaxHistoryMinutes m "dvol" (.num current) t t, [])
  | some previous => checkDvolBody cfg m current t previous deliver

/-- Repeated cooldown-gated firing attempts for one fixed alert key: each
cycle supplies the current time and the notification channel's outcome.
Returns the final store and the times of the delivered alerts, in order. -/
def runAlerts (cfg : MonitorConfig) (alertKey : String) :
    List (ℚ × Bool) → Store → Store × List ℚ
  | [], m => (m, [])
  | (t, ok) :: rest, m =>
      let p := tryAlert cfg m alertKey t ok
      let q := runAlerts cfg alertKey rest p.1
      (q.1, (if p.2 then [t] else []) ++ q.2)

/- ------------------------------------------------------------------ -/
/- RPC client (deribit_client.py)                                     -/
/- ------------------------------------------------------------------ -/

/-- The body of a JSON-RPC response that arrived with HTTP status 200:
either a `result` field (whose Python truthiness is recorded) or a truthy
`error` object carrying a code and whether the lowercased message contains
`"unauthorized"`. -/
inductive RpcResp where
  | result (truthy : Bool)
  | rpcError (code : Int) (unauthMsg : Bool)
deriving DecidableEq, Repr

/-- The outcome of one transmission attempt of `requests.post`. -/
inductive Outcome where
  | http200 (r : RpcResp)
  | httpError (status : Nat)
  | timeout
  | sslError
  | requestError
  | jsonDecodeError
  | otherError
deriving DecidableEq, Repr

/-- The client's session state: access token, its (safety-discounted) expiry
instant, and the request sequence number. -/
structure ClientState where
  token : Option Nat
  tokenExpiresAt : ℚ
  requestId : Nat
deriving DecidableEq, Repr

/-- One observable transmission attempt: either an attempt of a
`public/auth` sub-call or an attempt of the surrounding call, with the
request identifier it carries (and, for the outer call, the bearer token in
its `Authorization` header, `none` for public calls). -/
inductive ClientEvent where
  | authAttempt (id : Nat)
  | callAttempt (id : Nat) (headerToken : Option Nat)
deriving DecidableEq, Repr

/-- What `_make_request` returns: the `result` field on success (its
truthiness recorded), `None` on every failure path. -/
inductive CallResult where
  | ok (truthy : Bool)
  | fail
deriving DecidableEq, Repr

/-- `error_code in (13009, 13000) and "unauthorized" in error_msg.lower()`. -/
def isAuthError (code : Int) (unauthMsg : Bool) : Prop :=
  (code = 13009 ∨ code = 13000) ∧ unauthMsg = true

instance (code : Int) (unauthMsg : Bool) : Decidable (isAuthError code unauthMsg) :=
  inferInstanceAs (Decidable ((code = 13009 ∨ code = 13000) ∧ unauthMsg = true))

/-- The retry loop of `_make_request`.  `remaining` is the number of
attempts still allowed (initially `retry_times`), `attemptIdx` indexes the
oracle, `authIdx` counts `authenticate` invocations, `reqId` is the request
identifier built once before the loop and reused by every attempt of this
call.  `doAuth` performs `self.authenticate()` (its Boolean result, its
events and the new session state); it is invoked only on an
invalid/expired-token application error of a private call, once per such
error, and the loop then retries only if attempts remain — on the last
attempt the error falls through to the terminal failure.  Non-200 statuses
and transport exceptions retry with backoff (the sleeps are not modelled);
a JSON decode error and any other application error fail immediately. -/
def attemptLoop (isPrivate : Bool)
    (doAuth : ClientState → Nat → ClientState × Bool × List ClientEvent × Nat)
    (oracle : Nat → Outcome) (reqId : Nat) :
    Nat → Nat → ClientState → Nat → CallResult × ClientState × Nat × List ClientEvent
  | 0, _, st, authIdx => (.fail, st, authIdx, [])
  | remaining + 1, attemptIdx, st, authIdx =>
    let ev := ClientEvent.callAttempt reqId (if isPrivate then st.token else none)
    match oracle attemptIdx with
    | .http200 (.result truthy) => (.ok truthy, st, authIdx, [ev])
    | .http200 (.rpcError code unauthMsg) =>
        if isAuthError code unauthMsg then
          if isPrivate then
            let a := doAuth st authIdx
            if a.2.1 then
              if remaining ≠ 0 then
                let r := attemptLoop isPrivate doAuth oracle reqId remaining
                  (attemptIdx + 1) a.1 a.2.2.2
                (r.1, r.2.1, r.2.2.1, ev :: (a.2.2.1 ++ r.2.2.2))
              else (.fail, a.1, a.2.2.2, ev :: a.2.2.1)
            else (.fail, a.1, a.2.2.2, ev :: a.2.2.1)
          else (.fail, st, authIdx, [ev])
        else (.fail, st, authIdx, [ev])
    | .httpError _ =>
        if remaining ≠ 0 then
          let r := attemptLoop isPrivate doAuth oracle reqId remaining (attemptIdx + 1) st authIdx
          (r.1, r.2.1, r.2.2.1, ev :: r.2.2.2)
        else (.fail, st, authIdx, [ev])
    | .timeout =>
        if remaining ≠ 0 then
          let r := attemptLoop isPrivate doAuth oracle reqId remaining (attemptIdx + 1) st authIdx
          (r.1, r.2.1, r.2.2.1, ev :: r.2.2.2)
        else (.fail, st, authIdx, [ev])
    | .sslError =>
        if remaining ≠ 0 then
          let r := attemptLoop isPrivate doAuth oracle reqId remaining (attemptIdx + 1) st authIdx
          (r.1, r.2.1, r.2.2.1, ev :: r.2.2.2)
        else (.fail, st, authIdx, [ev])
    | .requestError =>
        if remaining ≠ 0 then
          let r := attemptLoop isPrivate doAuth oracle reqId remaining (attemptIdx + 1) st authIdx
          (r.1, r.2.1, r.2.2.1, ev :: r.2.2.2)
        else (.fail, st, authIdx, [ev])
    | .jsonDecodeError => (.fail, st, authIdx, [ev])
    | .otherError =>
        if remaining ≠ 0 then
          let r := attemptLoop isPrivate doAuth oracle reqId remaining (attemptIdx + 1) st authIdx
          (r.1, r.2.1, r.2.2.1, ev :: r.2.2.2)
        else (.fail, st, authIdx, [ev])

/-- Relabel the transmission attempts of a `public/auth` sub-call. -/
def toAuthEvents (evs : List ClientEvent) : List ClientEvent :=
  evs.map (fun e => match e with
    | .callAttempt i _ => ClientEvent.authAttempt i
    | e => e)

/-- `DeribitClient.authenticate`: one `_make_request("public/auth", ...,
retry_times=1)` — a single transmission attempt, whose outcome is
`authOracle authIdx`.  On a truthy result the token (`tokenOf authIdx`) is
stored with expiry `now + expires_in - 60`; otherwise the call reports
failure and the session is unchanged.  `public/auth` is not private, so the
re-authentication branch of the loop can never recurse. -/
def authenticate (authOracle : Nat → Outcome) (tokenOf : Nat → Option Nat)
    (expiresIn : Nat → ℚ) (now : ℚ) (st : ClientState) (authIdx : Nat) :
    ClientState × Bool × List ClientEvent × Nat :=
  let reqId := st.requestId + 1
  let st1 : ClientState := { st with requestId := reqId }
  let r := attemptLoop false (fun s a => (s, false, [], a)) (fun _ => authOracle authIdx)
    reqId 1 0 st1 0
  match r.1 with
  | .ok true =>
      ({ r.2.1 with token := tokenOf authIdx, tokenExpiresAt := now + expiresIn authIdx - 60 },
        true, toAuthEvents r.2.2.2, authIdx + 1)
  | _ => (r.2.1, false, toAuthEvents r.2.2.2, authIdx + 1)

/-- `DeribitClient._make_request` for a call, with `retry_times` attempts.
For a private call with no token or an expired one, authenticate first and
fail immediately if that fails; then run the attempt loop with a fresh
request identifier.  `oracle` gives each attempt's outcome, `authOracle`
the outcome of each authentication sub-call's single attempt. -/
def makeRequest (isPrivate : Bool) (oracle : Nat → Outcome) (authOracle : Nat → Outcome)
    (tokenOf : Nat → Option Nat) (expiresIn : Nat → ℚ) (now : ℚ) (retryTimes : Nat)
    (st : ClientState) (authIdx : Nat) :
    CallResult × ClientState × Nat × List ClientEvent :=
  let auth := authenticate authOracle tokenOf expiresIn now
  if isPrivate ∧ (st.token = none ∨ st.tokenExpiresAt ≤ now) then
    let a := auth st authIdx
    if a.2.1 then
      let reqId := a.1.requestId + 1
      let st2 : ClientState := { a.1 with requestId := reqId }
      let r := attemptLoop isPrivate auth oracle reqId retryTimes 0 st2 a.2.2.2
      (r.1, r.2.1, r.2.2.1, a.2.2.1 ++ r.2.2.2)
    else (.fail, a.1, a.2.2.2, a.2.2.1)
  else
    let reqId := st.requestId + 1
    let st1 : ClientState := { st with requestId := reqId }
    let r := attemptLoop isPrivate auth oracle reqId retryTimes 0 st1 authIdx
    (r.1, r.2.1, r.2.2.1, r.2.2.2)

/-- The transport attempts of the surrounding call in a trace. -/
def countCallAttempts (evs : List ClientEvent) : Nat :=
  evs.countP (fun e => match e with | .callAttempt _ _ => true | _ => false)

/-- The transport attempts of `public/auth` sub-calls in a trace. -/
def countAuthAttempts (evs : List ClientEvent) : Nat :=
  evs.countP (fun e => match e with | .authAttempt _ => true | _ => false)

/-- The request identifiers of the `public/auth` sub-call attempts. -/
def authIds (evs : List ClientEvent) : List Nat :=
  evs.filterMap (fun e => match e with | .authAttempt i => some i | _ => none)

/-- All request identifiers carried by a trace. -/
def allIds (evs : List ClientEvent) : List Nat :=
  evs.map (fun e => match e with | .authAttempt i => i | .callAttempt i _ => i)

/- ------------------------------------------------------------------ -/
/- Store lemmas                                                       -/
/- ------------------------------------------------------------------ -/

theorem alookup_aupdate_self {α : Type} (m : List (String × α)) (k : String) (v : α) :
    alookup (aupdate m k v) k = some v := by
  induction m with
  | nil => simp [aupdate, alookup]
  | cons kv rest ih =>
      obtain ⟨k', v'⟩ := kv
      by_cases h : k' = k
      · simp [aupdate, h, alookup]
      · simp [aupdate, h, alookup, ih]

theorem alookup_aupdate_ne {α : Type} (m : List (String × α)) (k k' : String) (v : α)
    (h : k' ≠ k) : alookup (aupdate m k v) k' = alookup m k' := by
  have hkk : ¬ k = k' := fun e => h e.symm
  induction m with
  | nil => simp [aupdate, alookup, hkk]
  | cons kv rest ih =>
      obtain ⟨k0, v0⟩ := kv
      by_cases h0 : k0 = k
      · subst h0
        simp [aupdate, alookup, hkk]
      · simp only [aupdate, if_neg h0, alookup]
        by_cases h1 : k0 = k'
        · simp [h1]
        · simp [h1, ih]

theorem alookup_cleanup_lat (c : ℚ) (m : Store) :
    alookup (cleanupOldData c m) "last_alert_times" = alookup m "last_alert_times" := by
  induction m with
  | nil => simp [cleanupOldData, alookup]
  | cons kv rest ih =>
      obtain ⟨k0, v0⟩ := kv
      by_cases h0 : k0 = "last_alert_times"
      · subst h0
        simp [cleanupOldData, List.filterMap_cons, cleanupValue, alookup]
      · cases hcv : cleanupValue c k0 v0 with
        | none =>
            simpa [cleanupOldData, List.filterMap_cons, hcv, alookup, h0] using ih
        | some v1 =>
            simpa [cleanupOldData, List.filterMap_cons, hcv, alookup, h0] using ih

theorem alookup_nil {α : Type} (k : String) : alookup ([] : List (String × α)) k = none := rfl

theorem alookup_cons {α : Type} (k0 : String) (v0 : α) (rest : List (String × α))
    (k : String) :
    alookup ((k0, v0) :: rest) k = if k0 = k then some v0 else alookup rest k := rfl

theorem cleanupOldData_nil (c : ℚ) : cleanupOldData c [] = [] := rfl

theorem cleanupOldData_cons (c : ℚ) (k0 : String) (v0 : StoredData) (rest : Store) :
    cleanupOldData c ((k0, v0) :: rest) =
      match cleanupValue c k0 v0 with
      | none => cleanupOldData c rest
      | some v1 => (k0, v1) :: cleanupOldData c rest := by
  cases hcv : cleanupValue c k0 v0 <;>
    simp [cleanupOldData, List.filterMap_cons, hcv]

theorem retained_cleanup (c : ℚ) (m : Store) (k : String)
    (hk1 : startsWithUnderscore k = false) (hk2 : k ≠ "last_alert_times")
    (e : Entry) (he : e ∈ retainedEntries (cleanupOldData c m) k) :
    c ≤ e.timestamp := by
  induction m with
  | nil => simp [cleanupOldData_nil, retainedEntries, alookup_nil] at he
  | cons kv rest ih =>
      obtain ⟨k0, v0⟩ := kv
      rw [cleanupOldData_cons] at he
      by_cases h0 : k0 = k
      · subst h0
        have hskip : ¬ (startsWithUnderscore k0 = true ∨ k0 = "last_alert_times") := by
          simp [hk1, hk2]
        cases v0 with
        | series latest history =>
            by_cases hemp : history.filter (fun item => decide (c ≤ item.timestamp)) = []
              ∧ latest = none
            · rw [show cleanupValue c k0 (.series latest history) = none by
                simp only [cleanupValue, if_neg hskip]
                simp [hemp.1, hemp.2]] at he
              exact ih he
            · rw [show cleanupValue c k0 (.series latest history) =
                  some (.series latest
                    (history.filter (fun item => decide (c ≤ item.timestamp)))) by
                simp only [cleanupValue, if_neg hskip]
                simp only [if_neg hemp]] at he
              rw [retainedEntries, alookup_cons, if_pos rfl] at he
              simp only [List.mem_filter, decide_eq_true_eq] at he
              exact he.2
        | single e0 =>
            by_cases hold : e0.timestamp < c
            · rw [show cleanupValue c k0 (.single e0) = none by
                simp only [cleanupValue, if_neg hskip]
                simp [hold]] at he
              exact ih he
            · rw [show cleanupValue c k0 (.single e0) = some (.single e0) by
                simp only [cleanupValue, if_neg hskip]
                simp [hold]] at he
              rw [retainedEntries, alookup_cons, if_pos rfl] at he
              simp only [List.mem_singleton] at he
              subst he
              exact le_of_not_lt hold
        | alertTable t =>
            rw [show cleanupValue c k0 (.alertTable t) = some (.alertTable t) by
              simp only [cleanupValue, if_neg hskip]] at he
            rw [retainedEntries, alookup_cons, if_pos rfl] at he
            simp at he
        | legacy =>
            rw [show cleanupValue c k0 .legacy = some .legacy by
              simp only [cleanupValue, if_neg hskip]] at he
            rw [retainedEntries, alookup_cons, if_pos rfl] at he
            simp at he
      · cases hcv : cleanupValue c k0 v0 with
        | none => rw [hcv] at he; exact ih he
        | some v1 =>
            rw [hcv] at he
            rw [retainedEntries, alookup_cons, if_neg h0] at he
            rw [show (match alookup (cleanupOldData c rest) k with
              | some (.series _ h) => h
              | some (.single e) => [e]
              | _ => ([] : List Entry)) = retainedEntries (cleanupOldData c rest) k
              from rfl] at he
            exact ih he

theorem mem_history_cleanup (c : ℚ) (m : Store) (k : String) (latest : Option Entry)
    (h : List Entry) (hm : alookup m k = some (.series latest h)) (e : Entry)
    (he : e ∈ h) (hts : c ≤ e.timestamp) :
    ∃ h', alookup (cleanupOldData c m) k = some (.series latest h') ∧ e ∈ h' := by
  induction m with
  | nil => simp [alookup_nil] at hm
  | cons kv rest ih =>
      obtain ⟨k0, v0⟩ := kv
      rw [cleanupOldData_cons]
      by_cases h0 : k0 = k
      · subst h0
        rw [alookup_cons, if_pos rfl] at hm
        cases hm
        by_cases hskip : startsWithUnderscore k0 = true ∨ k0 = "last_alert_times"
        · refine ⟨h, ?_, he⟩
          rw [show cleanupValue c k0 (.series latest h) = some (.series latest h) by
            simp only [cleanupValue, if_pos hskip]]
          rw [alookup_cons, if_pos rfl]
        · have hne : ¬(h.filter (fun item => decide (c ≤ item.timestamp)) = []
              ∧ latest = none) := by
            intro hc
            have hmem : e ∈ h.filter (fun item => decide (c ≤ item.timestamp)) := by
              simp [List.mem_filter, he, hts]
            rw [hc.1] at hmem
            simp at hmem
          refine ⟨h.filter (fun item => decide (c ≤ item.timestamp)), ?_, ?_⟩
          · rw [show cleanupValue c k0 (.series latest h) =
                some (.series latest (h.filter (fun item => decide (c ≤ item.timestamp)))) by
              simp only [cleanupValue, if_neg hskip]
              simp only [if_neg hne]]
            rw [alookup_cons, if_pos rfl]
          · simp [List.mem_filter, he, hts]
      · rw [alookup_cons, if_neg h0] at hm
        obtain ⟨h', hl, hmem⟩ := ih hm
        refine ⟨h', ?_, hmem⟩
        cases hcv : cleanupValue c k0 v0 with
        | none => exact hl
        | some v1 => rw [alookup_cons, if_neg h0]; exact hl

theorem getLastAlertTime_cleanup (c : ℚ) (m : Store) (ak : String) :
    getLastAlertTime (cleanupOldData c m) ak = getLastAlertTime m ak := by
  unfold getLastAlertTime
  rw [alookup_cleanup_lat]

theorem getLastAlertTime_aupdate_ne (m : Store) (key : String) (d : StoredData)
    (hk : key ≠ "last_alert_times") (ak : String) :
    getLastAlertTime (aupdate m key d) ak = getLastAlertTime m ak := by
  unfold getLastAlertTime
  rw [alookup_aupdate_ne _ _ _ _ (fun e => hk e.symm)]

theorem getLastAlertTime_storeSet (mh : ℚ) (m : Store) (key : String) (v : StoreValue)
    (ts now : ℚ) (hk : key ≠ "last_alert_times") (ak : String) :
    getLastAlertTime (storeSet mh m key v ts now) ak = getLastAlertTime m ak := by
  unfold storeSet saveState
  cases halk : alookup m key with
  | none => rw [getLastAlertTime_cleanup, getLastAlertTime_aupdate_ne _ _ _ hk]
  | some d =>
      cases d <;>
        rw [getLastAlertTime_cleanup, getLastAlertTime_aupdate_ne _ _ _ hk]

theorem getLastAlertTime_set_self (mh : ℚ) (m : Store) (ak : String) (ts now : ℚ) :
    getLastAlertTime (setLastAlertTime mh m ak ts now) ak = some ts := by
  unfold setLastAlertTime saveState
  rw [getLastAlertTime_cleanup]
  unfold getLastAlertTime
  rw [alookup_aupdate_self]
  exact alookup_aupdate_self _ _ _

theorem getLastAlertTime_set_ne (mh : ℚ) (m : Store) (ak ak' : String) (ts now : ℚ)
    (h : ak' ≠ ak) :
    getLastAlertTime (setLastAlertTime mh m ak ts now) ak' = getLastAlertTime m ak' := by
  have h1 : getLastAlertTime (setLastAlertTime mh m ak ts now) ak'
      = alookup (aupdate (alertTableOf m) ak ts) ak' := by
    unfold setLastAlertTime saveState
    rw [getLastAlertTime_cleanup]
    unfold getLastAlertTime
    rw [alookup_aupdate_self]
  rw [h1, alookup_aupdate_ne _ _ _ _ h]
  unfold alertTableOf getLastAlertTime
  cases alookup m "last_alert_times" with
  | none => simp [alookup_nil]
  | some d => cases d <;> simp [alookup_nil]

theorem tryAlert_delivered_iff (cfg : MonitorConfig) (m : Store) (k : String) (t : ℚ)
    (ok : Bool) :
    (tryAlert cfg m k t ok).2 = true ↔
      (shouldAlert cfg m k t = true ∧ cfg.enableAlert = true ∧ ok = true) := by
  unfold tryAlert
  split_ifs <;> simp_all

theorem tryAlert_not_delivered_store (cfg : MonitorConfig) (m : Store) (k : String)
    (t : ℚ) (ok : Bool) (h : (tryAlert cfg m k t ok).2 = false) :
    (tryAlert cfg m k t ok).1 = m := by
  unfold tryAlert at h ⊢
  split_ifs at h ⊢ <;> simp_all

theorem tryAlert_delivered_store (cfg : MonitorConfig) (m : Store) (k : String)
    (t : ℚ) (ok : Bool) (h : (tryAlert cfg m k t ok).2 = true) :
    (tryAlert cfg m k t ok).1 = setLastAlertTime monitorMaxHistoryMinutes m k t t := by
  unfold tryAlert at h ⊢
  split_ifs at h ⊢ <;> simp_all

theorem tryAlert_getLastAlertTime_ne (cfg : MonitorConfig) (m : Store) (k : String)
    (t : ℚ) (ok : Bool) (k' : String) (h : k' ≠ k) :
    getLastAlertTime (tryAlert cfg m k t ok).1 k' = getLastAlertTime m k' := by
  unfold tryAlert
  split_ifs <;> first
    | rfl
    | exact getLastAlertTime_set_ne _ _ _ _ _ _ h

theorem shouldAlert_some (cfg : MonitorConfig) (m : Store) (k : String) (t last : ℚ)
    (h : getLastAlertTime m k = some last) :
    shouldAlert cfg m k t = decide (cfg.cooldownSeconds ≤ t - last) := by
  unfold shouldAlert
  rw [h]

theorem runAlerts_cons (cfg : MonitorConfig) (key : String) (t : ℚ) (ok : Bool)
    (rest : List (ℚ × Bool)) (m : Store) :
    runAlerts cfg key ((t, ok) :: rest) m =
      ((runAlerts cfg key rest (tryAlert cfg m key t ok).1).1,
        (if (tryAlert cfg m key t ok).2 then [t] else []) ++
          (runAlerts cfg key rest (tryAlert cfg m key t ok).1).2) := rfl

theorem runAlerts_inv (cfg : MonitorConfig) (hcd : 0 ≤ cfg.cooldownSeconds)
    (key : String) (events : List (ℚ × Bool)) :
    ∀ m : Store,
      (∀ last, getLastAlertTime m key = some last →
        ∀ d ∈ (runAlerts cfg key events m).2, last + cfg.cooldownSeconds ≤ d)
      ∧ List.Pairwise (fun a b => a + cfg.cooldownSeconds ≤ b)
          (runAlerts cfg key events m).2 := by
  induction events with
  | nil =>
      intro m
      constructor
      · intro last _ d hd
        simp [runAlerts] at hd
      · simp [runAlerts]
  | cons e rest ih =>
      intro m
      obtain ⟨t, ok⟩ := e
      rw [runAlerts_cons]
      by_cases hp : (tryAlert cfg m key t ok).2 = true
      · have hst := tryAlert_delivered_store cfg m key t ok hp
        have hself : getLastAlertTime (tryAlert cfg m key t ok).1 key = some t := by
          rw [hst]; exact getLastAlertTime_set_self _ _ _ _ _
        have helig := ((tryAlert_delivered_iff cfg m key t ok).1 hp).1
        obtain ⟨ih1, ih2⟩ := ih (tryAlert cfg m key t ok).1
        rw [hp]
        constructor
        · intro last hlast d hd
          simp only [if_true, List.cons_append, List.nil_append, List.mem_cons] at hd
          have hle : last + cfg.cooldownSeconds ≤ t := by
            rw [shouldAlert_some cfg m key t last hlast] at helig
            have := of_decide_eq_true helig
            linarith
          rcases hd with rfl | hd
          · exact hle
          · have := ih1 t hself d hd
            linarith
        · simp only [if_true, List.cons_append, List.nil_append, List.pairwise_cons]
          exact ⟨fun d hd => ih1 t hself d hd, ih2⟩
      · rw [eq_false_of_ne_true hp]
        have hst := tryAlert_not_delivered_store cfg m key t ok (eq_false_of_ne_true hp)
        rw [hst]
        obtain ⟨ih1, ih2⟩ := ih m
        constructor
        · intro last hlast d hd
          simp only [if_false, List.nil_append] at hd
          exact ih1 last hlast d hd
        · simpa using ih2

theorem alertStep_mem_iff (cfg : MonitorConfig) (m : Store) (key : String) (t : ℚ)
    (ok : Bool) (ev : AlertEvent) :
    ev ∈ (alertStep cfg m key t ok ev).2 ↔
      (shouldAlert cfg m key t = true ∧ cfg.enableAlert = true ∧ ok = true) := by
  show ev ∈ (if (tryAlert cfg m key t ok).2 then [ev] else []) ↔ _
  by_cases hp : (tryAlert cfg m key t ok).2 = true
  · rw [hp, if_pos rfl]
    constructor
    · intro _
      exact (tryAlert_delivered_iff cfg m key t ok).1 hp
    · intro _
      exact List.mem_singleton_self ev
  · rw [eq_false_of_ne_true hp, if_neg (by simp)]
    simp only [List.not_mem_nil, false_iff]
    intro hc
    exact hp ((tryAlert_delivered_iff cfg m key t ok).2 hc)

theorem alertStep_not_mem (cfg : MonitorConfig) (m : Store) (key : String) (t : ℚ)
    (ok : Bool) (ev ev' : AlertEvent) (h : ev' ≠ ev) :
    ev' ∉ (alertStep cfg m key t ok ev).2 := by
  show ev' ∉ (if (tryAlert cfg m key t ok).2 then [ev] else [])
  by_cases hp : (tryAlert cfg m key t ok).2 = true
  · rw [hp, if_pos rfl]
    simp [h]
  · rw [eq_false_of_ne_true hp, if_neg (by simp)]
    simp

/- ------------------------------------------------------------------ -/
/- Sorted-list helper                                                 -/
/- ------------------------------------------------------------------ -/

theorem mem_tsLe_getLast (l : List Entry) (hs : List.Pairwise tsLe l) (hne : l ≠ []) :
    ∀ e ∈ l, e.timestamp ≤ (l.getLast hne).timestamp := by
  induction l with
  | nil => simp at hne
  | cons a rest ih =>
      intro e he
      cases rest with
      | nil =>
          simp only [List.mem_singleton] at he
          subst he
          simp [List.getLast]
      | cons b rs =>
          have hlast : (a :: b :: rs).getLast hne = (b :: rs).getLast (by simp) := by
            simp [List.getLast_cons]
          rw [hlast]
          rcases List.mem_cons.1 he with rfl | he2
          · have hmem := List.getLast_mem (l := b :: rs) (by simp)
            have := (List.pairwise_cons.1 hs).1 _ hmem
            exact this
          · exact ih (List.pairwise_cons.1 hs).2 (by simp) e he2

/- ------------------------------------------------------------------ -/
/- Claim theorems                                                     -/
/- ------------------------------------------------------------------ -/

/-- Concrete configuration (the source defaults) used by witnesses. -/
def witnessConfig : MonitorConfig :=
  { cooldownSeconds := 300
    enableAlert := true
    gammaLevel1 := 0.0001
    gammaLevel2 := 0.0005
    gammaLevel3 := 0.001
    vegaLevel1 := 10
    vegaLevel2 := 30
    vegaLevel3 := 50
    dvolAbsThreshold := 60
    dvolPctChange5m := 0.05
    dvolAbsChange5m := 5
    dvolSpecificValues := []
    dvolSpecificTolerance := 0.5 }

/-- C1: an alert is delivered only if the store records no firing time for
its key or the elapsed time since that firing time is at least the
configured cooldown; a successful delivery records the current time as the
key's firing time, a failed delivery leaves the store unchanged; and along
any sequence of firing attempts for one key, the delivery times are
pairwise at least the cooldown apart — two deliveries less than the
cooldown apart never both occur. -/
theorem C1_cooldown_deduplication (cfg : MonitorConfig)
    (hcd : 0 ≤ cfg.cooldownSeconds) (alertKey : String)
    (events : List (ℚ × Bool)) (m0 : Store) :
    (∀ (m : Store) (t : ℚ) (ok : Bool),
      ((tryAlert cfg m alertKey t ok).2 = true →
        getLastAlertTime m alertKey = none ∨
          ∃ last, getLastAlertTime m alertKey = some last ∧
            cfg.cooldownSeconds ≤ t - last)
      ∧ ((tryAlert cfg m alertKey t ok).2 = true →
          getLastAlertTime (tryAlert cfg m alertKey t ok).1 alertKey = some t)
      ∧ ((tryAlert cfg m alertKey t ok).2 = false →
          (tryAlert cfg m alertKey t ok).1 = m))
    ∧ List.Pairwise (fun a b => a + cfg.cooldownSeconds ≤ b)
        (runAlerts cfg alertKey events m0).2 := by
  constructor
  · intro m t ok
    refine ⟨?_, ?_, tryAlert_not_delivered_store cfg m alertKey t ok⟩
    · intro hp
      have helig := ((tryAlert_delivered_iff cfg m alertKey t ok).1 hp).1
      cases hlast : getLastAlertTime m alertKey with
      | none => exact Or.inl rfl
      | some last =>
          refine Or.inr ⟨last, rfl, ?_⟩
          rw [shouldAlert_some cfg m alertKey t last hlast] at helig
          exact of_decide_eq_true helig
    · intro hp
      rw [tryAlert_delivered_store cfg m alertKey t ok hp]
      exact getLastAlertTime_set_self _ _ _ _ _
  · exact (runAlerts_inv cfg hcd alertKey events m0).2

/-- Witness for C1: the default cooldown of 300 seconds is non-negative and
the theorem applies to a concrete two-cycle trace. -/
theorem C1_cooldown_deduplication_witness :
    (0 ≤ witnessConfig.cooldownSeconds) ∧
      ((∀ (m : Store) (t : ℚ) (ok : Bool),
        ((tryAlert witnessConfig m "BTC_gamma_level_重度" t ok).2 = true →
          getLastAlertTime m "BTC_gamma_level_重度" = none ∨
            ∃ last, getLastAlertTime m "BTC_gamma_level_重度" = some last ∧
              witnessConfig.cooldownSeconds ≤ t - last)
        ∧ ((tryAlert witnessConfig m "BTC_gamma_level_重度" t ok).2 = true →
            getLastAlertTime
              (tryAlert witnessConfig m "BTC_gamma_level_重度" t ok).1
              "BTC_gamma_level_重度" = some t)
        ∧ ((tryAlert witnessConfig m "BTC_gamma_level_重度" t ok).2 = false →
            (tryAlert witnessConfig m "BTC_gamma_level_重度" t ok).1 = m))
      ∧ List.Pairwise (fun a b => a + witnessConfig.cooldownSeconds ≤ b)
          (runAlerts witnessConfig "BTC_gamma_level_重度"
            [(100, true), (200, true)] []).2) :=
  ⟨by decide,
    C1_cooldown_deduplication witnessConfig (by decide) "BTC_gamma_level_重度"
      [(100, true), (200, true)] []⟩

/-- C2 (amended): with three ascending thresholds, the staged classification
used for the Γ and V magnitudes returns exactly the highest tier whose
threshold the magnitude meets or exceeds, and no tier when the magnitude
meets none; with the default thresholds, a magnitude of 0.0007 is medium,
0.0011 heavy and 0.00005 no alert.  The volatility index's absolute-level
check, by contrast, has no tiers: it fires exactly when its single
configured threshold is met, and (in a cycle with a previous value and no
specific target values configured) the severity-less absolute alert is
delivered exactly when that single threshold is met, the key is
cooldown-eligible, alerting is enabled and delivery succeeds. -/
theorem C2_level_classification (level1 level2 level3 : ℚ)
    (h12 : level1 < level2) (h23 : level2 < level3) :
    (∀ magnitude sev,
      classifyLevel magnitude level1 level2 level3 = some sev ↔
        (levelThreshold level1 level2 level3 sev ≤ magnitude ∧
          ∀ sev', levelThreshold level1 level2 level3 sev' ≤ magnitude →
            severityRank sev' ≤ severityRank sev))
    ∧ (∀ magnitude,
        classifyLevel magnitude level1 level2 level3 = none ↔ magnitude < level1)
    ∧ classifyLevel 0.0007 0.0001 0.0005 0.001 = some Severity.medium
    ∧ classifyLevel 0.0011 0.0001 0.0005 0.001 = some Severity.heavy
    ∧ classifyLevel 0.00005 0.0001 0.0005 0.001 = none
    ∧ (∀ threshold current, dvolAbsValueCheck threshold current = true ↔
        threshold ≤ current)
    ∧ ∀ (cfg : MonitorConfig) (m : Store) (current t previous : ℚ)
        (deliver : AlertEvent → Bool),
        dvolPrevious m t = some previous → cfg.dvolSpecificValues = [] →
        (AlertEvent.dvolAbsValue ∈ (checkDvol cfg m current t deliver).2 ↔
          (dvolAbsValueCheck cfg.dvolAbsThreshold current = true
            ∧ shouldAlert cfg m "dvol_abs_value" t = true
            ∧ cfg.enableAlert = true
            ∧ deliver AlertEvent.dvolAbsValue = true)) := by
  refine ⟨?_, ?_, ?_, ?_, ?_, ?_, ?_⟩
  · intro v sev
    constructor
    · intro hcl
      unfold classifyLevel at hcl
      split_ifs at hcl with h3 h2 h1
      · cases hcl
        refine ⟨h3, fun sev' _ => ?_⟩
        cases sev' <;> simp [severityRank]
      · cases hcl
        refine ⟨h2, fun sev' hle => ?_⟩
        cases sev' <;> simp [severityRank]
        exact absurd hle h3
      · cases hcl
        refine ⟨h1, fun sev' hle => ?_⟩
        cases sev' <;> simp [severityRank, levelThreshold] at hle ⊢
        · exact absurd hle h2
        · exact absurd hle h3
    · rintro ⟨hle, hmax⟩
      unfold classifyLevel
      cases sev with
      | heavy => rw [if_pos (show level3 ≤ v from hle)]
      | medium =>
          have h3 : ¬ level3 ≤ v := by
            intro hc
            have := hmax .heavy hc
            simp [severityRank] at this
          rw [if_neg h3, if_pos (show level2 ≤ v from hle)]
      | light =>
          have h3 : ¬ level3 ≤ v := by
            intro hc
            have := hmax .heavy hc
            simp [severityRank] at this
          have h2 : ¬ level2 ≤ v := by
            intro hc
            have := hmax .medium hc
            simp [severityRank] at this
          rw [if_neg h3, if_neg h2, if_pos (show level1 ≤ v from hle)]
  · intro v
    unfold classifyLevel
    split_ifs with h3 h2 h1
    · simp only [reduceCtorEq, false_iff, not_lt]
      linarith
    · simp only [reduceCtorEq, false_iff, not_lt]
      linarith
    · simp only [reduceCtorEq, false_iff, not_lt]
      linarith
    · simp only [true_iff]
      linarith
  · norm_num [classifyLevel]
  · norm_num [classifyLevel]
  · norm_num [classifyLevel]
  · intro threshold current
    simp [dvolAbsValueCheck]
  · intro cfg m current t previous deliver hprev hspec
    unfold checkDvol
    rw [hprev]
    unfold checkDvolBody
    cases hms : matchedSpecificValue cfg current with
    | some target =>
        rw [matchedSpecificValue, hspec] at hms
        simp at hms
    | none =>
        simp only []
        by_cases habs : dvolAbsValueCheck cfg.dvolAbsThreshold current = true
        · rw [if_pos habs]
          by_cases hch : dvolChangeCheck cfg previous current = true
          · rw [if_pos hch]
            have hnot3 := alertStep_not_mem cfg
              (alertStep cfg m "dvol_abs_value" t (deliver .dvolAbsValue) .dvolAbsValue).1
              "dvol_change" t (deliver .dvolChange) .dvolChange .dvolAbsValue (by simp)
            constructor
            · intro hmem
              simp only [List.nil_append] at hmem
              rcases List.mem_append.1 hmem with hx | hx
              · obtain ⟨h1, h2, h3⟩ := (alertStep_mem_iff cfg m "dvol_abs_value" t
                  (deliver .dvolAbsValue) .dvolAbsValue).1 hx
                exact ⟨habs, h1, h2, h3⟩
              · exact absurd hx hnot3
            · rintro ⟨-, h1, h2, h3⟩
              simp only [List.nil_append]
              exact List.mem_append.2 (Or.inl ((alertStep_mem_iff cfg m "dvol_abs_value" t
                (deliver .dvolAbsValue) .dvolAbsValue).2 ⟨h1, h2, h3⟩))
          · rw [if_neg hch]
            constructor
            · intro hmem
              simp only [List.nil_append, List.append_nil] at hmem
              obtain ⟨h1, h2, h3⟩ := (alertStep_mem_iff cfg m "dvol_abs_value" t
                (deliver .dvolAbsValue) .dvolAbsValue).1 hmem
              exact ⟨habs, h1, h2, h3⟩
            · rintro ⟨-, h1, h2, h3⟩
              simp only [List.nil_append, List.append_nil]
              exact (alertStep_mem_iff cfg m "dvol_abs_value" t
                (deliver .dvolAbsValue) .dvolAbsValue).2 ⟨h1, h2, h3⟩
        · rw [if_neg habs]
          by_cases hch : dvolChangeCheck cfg previous current = true
          · rw [if_pos hch]
            have hnot3 := alertStep_not_mem cfg m "dvol_change" t
              (deliver .dvolChange) .dvolChange .dvolAbsValue (by simp)
            constructor
            · intro hmem
              simp only [List.nil_append] at hmem
              exact absurd hmem hnot3
            · rintro ⟨hc, -, -, -⟩
              exact absurd hc habs
          · rw [if_neg hch]
            constructor
            · intro hmem
              simp at hmem
            · rintro ⟨hc, -, -, -⟩
              exact absurd hc habs

/-- Witness for C2: the default gamma thresholds are ascending. -/
theorem C2_level_classification_witness :
    ((0.0001 : ℚ) < 0.0005 ∧ (0.0005 : ℚ) < 0.001) ∧
      ((∀ magnitude sev,
        classifyLevel magnitude 0.0001 0.0005 0.001 = some sev ↔
          (levelThreshold 0.0001 0.0005 0.001 sev ≤ magnitude ∧
            ∀ sev', levelThreshold 0.0001 0.0005 0.001 sev' ≤ magnitude →
              severityRank sev' ≤ severityRank sev))
      ∧ (∀ magnitude,
          classifyLevel magnitude 0.0001 0.0005 0.001 = none ↔ magnitude < 0.0001)
      ∧ classifyLevel 0.0007 0.0001 0.0005 0.001 = some Severity.medium
      ∧ classifyLevel 0.0011 0.0001 0.0005 0.001 = some Severity.heavy
      ∧ classifyLevel 0.00005 0.0001 0.0005 0.001 = none
      ∧ (∀ threshold current, dvolAbsValueCheck threshold current = true ↔
          threshold ≤ current)
      ∧ ∀ (cfg : MonitorConfig) (m : Store) (current t previous : ℚ)
          (deliver : AlertEvent → Bool),
          dvolPrevious m t = some previous → cfg.dvolSpecificValues = [] →
          (AlertEvent.dvolAbsValue ∈ (checkDvol cfg m current t deliver).2 ↔
            (dvolAbsValueCheck cfg.dvolAbsThreshold current = true
              ∧ shouldAlert cfg m "dvol_abs_value" t = true
              ∧ cfg.enableAlert = true
              ∧ deliver AlertEvent.dvolAbsValue = true))) :=
  ⟨⟨by norm_num, by norm_num⟩,
    C2_level_classification 0.0001 0.0005 0.001 (by norm_num) (by norm_num)⟩

/-- C7: after a `set` (which saves, and therefore prunes, the store), every
entry still retained for any series key — any key other than the skipped
internal `"_"`-prefixed keys and the `"last_alert_times"` cooldown table —
has a timestamp within the retention window `max_history_minutes * 60` of
the pruning time. -/
theorem C7_retention_after_set (mh : ℚ) (m : Store) (key : String)
    (value : StoreValue) (ts now : ℚ) (k : String)
    (hk1 : startsWithUnderscore k = false) (hk2 : k ≠ "last_alert_times")
    (e : Entry) (he : e ∈ retainedEntries (storeSet mh m key value ts now) k) :
    now - mh * 60 ≤ e.timestamp := by
  simp only [storeSet, saveState] at he
  exact retained_cleanup _ _ _ hk1 hk2 _ he

/-- Witness for C7: a concrete fresh write is retained and within the window. -/
theorem C7_retention_after_set_witness :
    (startsWithUnderscore "dvol" = false ∧ "dvol" ≠ "last_alert_times"
      ∧ (⟨StoreValue.num 1, 100⟩ : Entry) ∈
          retainedEntries (storeSet 60 [] "dvol" (StoreValue.num 1) 100 100) "dvol")
    ∧ (100 : ℚ) - 60 * 60 ≤ (⟨StoreValue.num 1, 100⟩ : Entry).timestamp := by
  have hmem : (⟨StoreValue.num 1, 100⟩ : Entry) ∈
      retainedEntries (storeSet 60 [] "dvol" (StoreValue.num 1) 100 100) "dvol" := by
    norm_num [storeSet, saveState, cleanupOldData, cleanupValue, retainedEntries,
      alookup, aupdate, startsWithUnderscore, List.filterMap_cons]
  exact ⟨⟨by decide, by decide, hmem⟩,
    C7_retention_after_set 60 [] "dvol" (StoreValue.num 1) 100 100 "dvol"
      (by decide) (by decide) _ hmem⟩

/-- C8: the pruning run by every persist never touches the
`"last_alert_times"` table, and a `set` on any metric-series key leaves
every recorded last-alert timestamp unchanged, no matter how old it is. -/
theorem C8_cooldown_table_frame (mh : ℚ) (m : Store) (key : String)
    (hk : key ≠ "last_alert_times") (value : StoreValue) (ts now : ℚ) (ak : String) :
    getLastAlertTime (storeSet mh m key value ts now) ak = getLastAlertTime m ak
    ∧ ∀ c, getLastAlertTime (cleanupOldData c m) ak = getLastAlertTime m ak :=
  ⟨getLastAlertTime_storeSet mh m key value ts now hk ak,
    fun c => getLastAlertTime_cleanup c m ak⟩

/-- Witness for C8: a concrete set next to an arbitrarily old alert time. -/
theorem C8_cooldown_table_frame_witness :
    ("dvol" ≠ "last_alert_times") ∧
      (getLastAlertTime
        (storeSet 60 [("last_alert_times", StoredData.alertTable [("k", 5)])]
          "dvol" (StoreValue.num 1) 100000 100000) "k"
        = getLastAlertTime [("last_alert_times", StoredData.alertTable [("k", 5)])] "k"
      ∧ ∀ c, getLastAlertTime
          (cleanupOldData c [("last_alert_times", StoredData.alertTable [("k", 5)])]) "k"
          = getLastAlertTime [("last_alert_times", StoredData.alertTable [("k", 5)])] "k") :=
  ⟨by decide,
    C8_cooldown_table_frame 60 [("last_alert_times", StoredData.alertTable [("k", 5)])]
      "dvol" (by decide) (StoreValue.num 1) 100000 100000 "k"⟩

/-- C10: for a key stored in the `{latest, history}` format, `get_latest`
returns an entry of the history with the maximum timestamp when the history
is non-empty and absent when the history is empty, and the result does not
depend on the cached `"latest"` field in either case — so a key whose
history has been fully pruned reports no latest value even though a
`"latest"` marker is still stored. -/
theorem C10_get_latest (m : Store) (k : String) (latest : Option Entry)
    (h : List Entry) (hm : alookup m k = some (.series latest h)) :
    (h = [] → getLatest m k = none)
    ∧ (h ≠ [] → ∃ e ∈ h, getLatest m k = some e ∧
        ∀ e' ∈ h, e'.timestamp ≤ e.timestamp)
    ∧ ∀ latest', getLatest (aupdate m k (.series latest' h)) k = getLatest m k := by
  refine ⟨?_, ?_, ?_⟩
  · intro hemp
    unfold getLatest
    rw [hm]
    show (if h = [] then none else (List.insertionSort tsLe h).getLast?) = none
    rw [if_pos hemp]
  · intro hne
    have hperm := List.perm_insertionSort tsLe h
    have hsne : List.insertionSort tsLe h ≠ [] := by
      intro hc
      rw [hc] at hperm
      exact hne (List.Perm.nil_eq hperm).symm
    have hsorted : List.Pairwise tsLe (List.insertionSort tsLe h) :=
      List.sorted_insertionSort tsLe h
    refine ⟨(List.insertionSort tsLe h).getLast hsne, ?_, ?_, ?_⟩
    · exact hperm.subset (List.getLast_mem hsne)
    · unfold getLatest
      rw [hm]
      show (if h = [] then none else (List.insertionSort tsLe h).getLast?) = _
      rw [if_neg hne]
      exact List.getLast?_eq_getLast _ hsne
    · intro e' he'
      exact mem_tsLe_getLast _ hsorted hsne e' (hperm.mem_iff.2 he')
  · intro latest'
    unfold getLatest
    rw [hm, alookup_aupdate_self]

/-- Witness for C10: a key whose history was fully pruned but whose
`"latest"` marker survives reports no latest value. -/
theorem C10_get_latest_witness :
    (alookup [("k", StoredData.series (some ⟨StoreValue.num 9, 999⟩) [])] "k"
      = some (StoredData.series (some ⟨StoreValue.num 9, 999⟩) []))
    ∧ getLatest [("k", StoredData.series (some ⟨StoreValue.num 9, 999⟩) [])] "k" = none :=
  ⟨by decide,
    (C10_get_latest [("k", StoredData.series (some ⟨StoreValue.num 9, 999⟩) [])] "k"
      (some ⟨StoreValue.num 9, 999⟩) [] (by decide)).1 rfl⟩

/- ------------------------------------------------------------------ -/
/- Write-survival and event-membership lemmas                          -/
/- ------------------------------------------------------------------ -/

theorem storeSet_alookup_mem (mh : ℚ) (hmh : 0 ≤ mh) (m : Store) (key : String)
    (value : StoreValue) (ts : ℚ) :
    ∃ h', alookup (storeSet mh m key value ts ts) key
        = some (.series (some ⟨value, ts⟩) h') ∧ (⟨value, ts⟩ : Entry) ∈ h' := by
  have hcut : ts - mh * 60 ≤ (⟨value, ts⟩ : Entry).timestamp := by
    have : (0:ℚ) ≤ mh * 60 := by positivity
    simp only []
    linarith
  have main : ∀ hX : List Entry, (⟨value, ts⟩ : Entry) ∈ hX →
      ∃ h', alookup (cleanupOldData (ts - mh * 60)
          (aupdate m key (.series (some ⟨value, ts⟩) hX))) key
        = some (.series (some ⟨value, ts⟩) h') ∧ (⟨value, ts⟩ : Entry) ∈ h' := by
    intro hX hmem0
    exact mem_history_cleanup _ _ key _ hX (alookup_aupdate_self _ _ _) _ hmem0 hcut
  cases halk : alookup m key with
  | none => simpa only [storeSet, saveState, halk] using main _ (by simp)
  | some d =>
      cases d with
      | series latest history =>
          have hmem0 : (⟨value, ts⟩ : Entry) ∈ List.insertionSort tsLe
              (history.filter (fun h => decide (1 < |h.timestamp - ts|)) ++ [⟨value, ts⟩]) :=
            (List.perm_insertionSort tsLe _).mem_iff.2 (by simp)
          simpa only [storeSet, saveState, halk] using main _ hmem0
      | single e => simpa only [storeSet, saveState, halk] using main _ (by simp)
      | alertTable t => simpa only [storeSet, saveState, halk] using main _ (by simp)
      | legacy => simpa only [storeSet, saveState, halk] using main _ (by simp)

theorem mem_setLastAlertTime (mh : ℚ) (m : Store) (k ak : String)
    (hk : k ≠ "last_alert_times") (ts : ℚ) (latest : Option Entry) (h : List Entry)
    (hm : alookup m k = some (.series latest h)) (e : Entry) (he : e ∈ h)
    (hts : ts - mh * 60 ≤ e.timestamp) :
    ∃ h', alookup (setLastAlertTime mh m ak ts ts) k = some (.series latest h')
      ∧ e ∈ h' := by
  simp only [setLastAlertTime, saveState]
  exact mem_history_cleanup _ _ k latest h
    (by rw [alookup_aupdate_ne _ _ _ _ hk]; exact hm) e he hts

theorem mem_tryAlert (cfg : MonitorConfig) (m : Store) (k ak : String)
    (hk : k ≠ "last_alert_times") (t : ℚ) (ok : Bool) (latest : Option Entry)
    (h : List Entry) (hm : alookup m k = some (.series latest h)) (e : Entry)
    (he : e ∈ h) (hts : t - monitorMaxHistoryMinutes * 60 ≤ e.timestamp) :
    ∃ h', alookup (tryAlert cfg m ak t ok).1 k = some (.series latest h') ∧ e ∈ h' := by
  unfold tryAlert
  split_ifs with h1 h2 h3
  · exact mem_setLastAlertTime _ _ _ _ hk _ _ _ hm _ he hts
  · exact ⟨h, hm, he⟩
  · exact ⟨h, hm, he⟩
  · exact ⟨h, hm, he⟩

theorem mem_checkGammaLevels (cfg : MonitorConfig) (pos : OptionPosition) (t : ℚ)
    (m : Store) (deliver : AlertEvent → Bool) (k : String)
    (hk : k ≠ "last_alert_times") (latest : Option Entry) (h : List Entry)
    (hm : alookup m k = some (.series latest h)) (e : Entry) (he : e ∈ h)
    (hts : t - monitorMaxHistoryMinutes * 60 ≤ e.timestamp) :
    ∃ h', alookup (checkGammaLevels cfg pos t m deliver).1 k
        = some (.series latest h') ∧ e ∈ h' := by
  unfold checkGammaLevels
  cases classifyLevel |pos.gamma| cfg.gammaLevel1 cfg.gammaLevel2 cfg.gammaLevel3 with
  | none => exact ⟨h, hm, he⟩
  | some sev => exact mem_tryAlert cfg m k _ hk t _ latest h hm e he hts

theorem mem_checkVegaThreshold (cfg : MonitorConfig) (pos : OptionPosition) (t : ℚ)
    (m : Store) (deliver : AlertEvent → Bool) (k : String)
    (hk : k ≠ "last_alert_times") (latest : Option Entry) (h : List Entry)
    (hm : alookup m k = some (.series latest h)) (e : Entry) (he : e ∈ h)
    (hts : t - monitorMaxHistoryMinutes * 60 ≤ e.timestamp) :
    ∃ h', alookup (checkVegaThreshold cfg pos t m deliver).1 k
        = some (.series latest h') ∧ e ∈ h' := by
  unfold checkVegaThreshold
  cases classifyLevel |pos.vega| cfg.vegaLevel1 cfg.vegaLevel2 cfg.vegaLevel3 with
  | none => exact ⟨h, hm, he⟩
  | some sev => exact mem_tryAlert cfg m k _ hk t _ latest h hm e he hts

theorem shouldAlert_congr (cfg : MonitorConfig) (m m' : Store) (k : String) (t : ℚ)
    (h : getLastAlertTime m' k = getLastAlertTime m k) :
    shouldAlert cfg m' k t = shouldAlert cfg m k t := by
  unfold shouldAlert
  rw [h]

theorem checkGamma_mem_iff (cfg : MonitorConfig) (pos : OptionPosition) (t : ℚ)
    (m : Store) (deliver : AlertEvent → Bool) (sev : Severity) :
    AlertEvent.gammaLevel pos.instrumentName sev
        ∈ (checkGammaLevels cfg pos t m deliver).2 ↔
      (classifyLevel |pos.gamma| cfg.gammaLevel1 cfg.gammaLevel2 cfg.gammaLevel3
          = some sev
        ∧ shouldAlert cfg m (gammaAlertKey pos.instrumentName sev) t = true
        ∧ cfg.enableAlert = true
        ∧ deliver (.gammaLevel pos.instrumentName sev) = true) := by
  unfold checkGammaLevels
  cases hcl : classifyLevel |pos.gamma| cfg.gammaLevel1 cfg.gammaLevel2 cfg.gammaLevel3 with
  | none => simp
  | some sev' =>
      by_cases hp : (tryAlert cfg m (gammaAlertKey pos.instrumentName sev') t
          (deliver (.gammaLevel pos.instrumentName sev'))).2 = true
      · simp only [hp, if_true]
        constructor
        · intro hmem
          simp only [List.mem_singleton, AlertEvent.gammaLevel.injEq] at hmem
          obtain ⟨-, rfl⟩ := hmem
          obtain ⟨hsa, hen, hok⟩ := (tryAlert_delivered_iff _ _ _ _ _).1 hp
          exact ⟨rfl, hsa, hen, hok⟩
        · rintro ⟨hsome, hsa, hen, hok⟩
          cases hsome
          simp
      · simp only [eq_false_of_ne_true hp, if_false]
        constructor
        · intro hmem
          simp at hmem
        · rintro ⟨hsome, hsa, hen, hok⟩
          cases hsome
          exact absurd ((tryAlert_delivered_iff _ _ _ _ _).2 ⟨hsa, hen, hok⟩) hp

theorem checkVega_events_shape (cfg : MonitorConfig) (pos : OptionPosition) (t : ℚ)
    (m : Store) (deliver : AlertEvent → Bool) :
    ∀ ev ∈ (checkVegaThreshold cfg pos t m deliver).2, ∃ i s, ev = .vegaLevel i s := by
  unfold checkVegaThreshold
  cases classifyLevel |pos.vega| cfg.vegaLevel1 cfg.vegaLevel2 cfg.vegaLevel3 with
  | none => simp
  | some sev =>
      intro ev hev
      by_cases hp : (tryAlert cfg m (vegaAlertKey pos.instrumentName sev) t
          (deliver (.vegaLevel pos.instrumentName sev))).2 = true
      · simp only [hp, if_true, List.mem_singleton] at hev
        exact ⟨_, _, hev⟩
      · simp [eq_false_of_ne_true hp] at hev

theorem checkDvol_no_history (cfg : MonitorConfig) (m : Store) (v t : ℚ)
    (deliver : AlertEvent → Bool) (hd : getHistory m "dvol" 5 t = []) :
    checkDvol cfg m v t deliver
      = (storeSet monitorMaxHistoryMinutes m "dvol" (.num v) t t, []) := by
  unfold checkDvol dvolPrevious
  rw [hd]
  rfl

theorem checkPosition_no_history (cfg : MonitorConfig) (m : Store)
    (pos : OptionPosition) (t : ℚ) (deliver : AlertEvent → Bool)
    (hh : getHistory m pos.instrumentName 5 t = []) :
    checkPosition cfg m pos t deliver =
      ((checkVegaThreshold cfg pos t
          (checkGammaLevels cfg pos t
            (storeSet monitorMaxHistoryMinutes m pos.instrumentName (positionRecord pos) t t)
            deliver).1 deliver).1,
        (checkGammaLevels cfg pos t
            (storeSet monitorMaxHistoryMinutes m pos.instrumentName (positionRecord pos) t t)
            deliver).2 ++
          (checkVegaThreshold cfg pos t
            (checkGammaLevels cfg pos t
              (storeSet monitorMaxHistoryMinutes m pos.instrumentName (positionRecord pos) t t)
              deliver).1 deliver).2) := by
  unfold checkPosition
  rw [hh]
  rfl

/-- C3 counterexample: in a cycle with no history for the volatility index,
the current magnitude 70 meets the absolute threshold 60, the alert key is
cooldown-eligible, alerting is enabled and delivery would succeed — yet the
evaluator performs no absolute-level classification at all: it only records
the observation and delivers nothing. -/
theorem C3_counterexample :
    dvolAbsValueCheck witnessConfig.dvolAbsThreshold 70 = true
    ∧ shouldAlert witnessConfig [] "dvol_abs_value" 1000 = true
    ∧ witnessConfig.enableAlert = true
    ∧ (checkDvol witnessConfig [] 70 1000 (fun _ => true)).2 = [] := by
  refine ⟨by decide, by decide, by decide, ?_⟩
  rw [checkDvol_no_history witnessConfig [] 70 1000 (fun _ => true) rfl]

/-- C3 (amended): in a cycle with no prior history, the evaluator
unconditionally writes the current observation into the store both for the
volatility index and for an instrument; for an instrument it still performs
the absolute-level classification (a gamma level alert is delivered exactly
when a tier matches, the key is cooldown-eligible, alerting is enabled and
delivery succeeds); but for the volatility index it performs no
classification and no trend comparison — no alert of any kind fires. -/
theorem C3_no_history_baseline (cfg : MonitorConfig) (m : Store)
    (pos : OptionPosition) (t : ℚ) (deliver : AlertEvent → Bool) (v : ℚ)
    (hinstr : pos.instrumentName ≠ "last_alert_times")
    (hd : getHistory m "dvol" 5 t = [])
    (hh : getHistory m pos.instrumentName 5 t = []) :
    (checkDvol cfg m v t deliver).2 = []
    ∧ (⟨.num v, t⟩ : Entry) ∈ retainedEntries (checkDvol cfg m v t deliver).1 "dvol"
    ∧ (⟨positionRecord pos, t⟩ : Entry) ∈
        retainedEntries (checkPosition cfg m pos t deliver).1 pos.instrumentName
    ∧ ∀ sev,
        (AlertEvent.gammaLevel pos.instrumentName sev
            ∈ (checkPosition cfg m pos t deliver).2
          ↔ (classifyLevel |pos.gamma| cfg.gammaLevel1 cfg.gammaLevel2 cfg.gammaLevel3
              = some sev
            ∧ shouldAlert cfg m (gammaAlertKey pos.instrumentName sev) t = true
            ∧ cfg.enableAlert = true
            ∧ deliver (.gammaLevel pos.instrumentName sev) = true)) := by
  have hmh : (0:ℚ) ≤ monitorMaxHistoryMinutes := by norm_num [monitorMaxHistoryMinutes]
  have hcut : t - monitorMaxHistoryMinutes * 60 ≤ (⟨positionRecord pos, t⟩ : Entry).timestamp := by
    simp only [monitorMaxHistoryMinutes]
    norm_num
  refine ⟨?_, ?_, ?_, ?_⟩
  · rw [checkDvol_no_history cfg m v t deliver hd]
  · rw [checkDvol_no_history cfg m v t deliver hd]
    obtain ⟨h', hl, hmem⟩ :=
      storeSet_alookup_mem monitorMaxHistoryMinutes hmh m "dvol" (.num v) t
    unfold retainedEntries
    rw [hl]
    exact hmem
  · rw [checkPosition_no_history cfg m pos t deliver hh]
    obtain ⟨h1, hl1, hm1⟩ := storeSet_alookup_mem monitorMaxHistoryMinutes hmh m
      pos.instrumentName (positionRecord pos) t
    obtain ⟨h2, hl2, hm2⟩ := mem_checkGammaLevels cfg pos t _ deliver
      pos.instrumentName hinstr _ _ hl1 _ hm1 hcut
    obtain ⟨h3, hl3, hm3⟩ := mem_checkVegaThreshold cfg pos t _ deliver
      pos.instrumentName hinstr _ _ hl2 _ hm2 hcut
    unfold retainedEntries
    rw [hl3]
    exact hm3
  · intro sev
    rw [checkPosition_no_history cfg m pos t deliver hh]
    have hfr : getLastAlertTime
        (storeSet monitorMaxHistoryMinutes m pos.instrumentName (positionRecord pos) t t)
        (gammaAlertKey pos.instrumentName sev)
        = getLastAlertTime m (gammaAlertKey pos.instrumentName sev) :=
      getLastAlertTime_storeSet _ _ _ _ _ _ hinstr _
    have hvega := checkVega_events_shape cfg pos t
      (checkGammaLevels cfg pos t
        (storeSet monitorMaxHistoryMinutes m pos.instrumentName (positionRecord pos) t t)
        deliver).1 deliver
    constructor
    · intro hmem
      simp only [List.mem_append] at hmem
      rcases hmem with hmem | hmem
      · have := (checkGamma_mem_iff cfg pos t _ deliver sev).1 hmem
        rw [shouldAlert_congr cfg m _ _ t hfr] at this
        exact this
      · obtain ⟨i, s, hev⟩ := hvega _ hmem
        exact absurd hev (by simp)
    · intro hcond
      rw [← shouldAlert_congr cfg m _ _ t hfr] at hcond
      exact List.mem_append.2 (Or.inl ((checkGamma_mem_iff cfg pos t _ deliver sev).2 hcond))

/-- Witness for C3 (amended) at a concrete no-history cycle. -/
theorem C3_no_history_baseline_witness :
    (("BTC-TEST" : String) ≠ "last_alert_times"
      ∧ getHistory [] "dvol" 5 1000 = []
      ∧ getHistory [] "BTC-TEST" 5 1000 = [])
    ∧ ((checkDvol witnessConfig [] 50 1000 (fun _ => true)).2 = []
      ∧ (⟨.num 50, 1000⟩ : Entry) ∈
          retainedEntries (checkDvol witnessConfig [] 50 1000 (fun _ => true)).1 "dvol"
      ∧ (⟨positionRecord ⟨"BTC-TEST", "buy", 1, 2, 0, 0⟩, 1000⟩ : Entry) ∈
          retainedEntries
            (checkPosition witnessConfig [] ⟨"BTC-TEST", "buy", 1, 2, 0, 0⟩ 1000
              (fun _ => true)).1 "BTC-TEST"
      ∧ ∀ sev,
          (AlertEvent.gammaLevel "BTC-TEST" sev
              ∈ (checkPosition witnessConfig [] ⟨"BTC-TEST", "buy", 1, 2, 0, 0⟩ 1000
                  (fun _ => true)).2
            ↔ (classifyLevel |(2:ℚ)| witnessConfig.gammaLevel1 witnessConfig.gammaLevel2
                witnessConfig.gammaLevel3 = some sev
              ∧ shouldAlert witnessConfig [] (gammaAlertKey "BTC-TEST" sev) 1000 = true
              ∧ witnessConfig.enableAlert = true
              ∧ (fun (_ : AlertEvent) => true) (.gammaLevel "BTC-TEST" sev) = true))) :=
  ⟨⟨by decide, rfl, rfl⟩,
    C3_no_history_baseline witnessConfig [] ⟨"BTC-TEST", "buy", 1, 2, 0, 0⟩ 1000
      (fun _ => true) 50 (by decide) rfl rfl⟩


theorem alertStep_frame (cfg : MonitorConfig) (m : Store) (key : String) (t : ℚ)
    (ok : Bool) (ev : AlertEvent) (k' : String) (h : k' ≠ key) :
    getLastAlertTime (alertStep cfg m key t ok ev).1 k' = getLastAlertTime m k' :=
  tryAlert_getLastAlertTime_ne cfg m key t ok k' h

theorem dvol_change_ne_specific (s : String) :
    ("dvol_change" : String) ≠ "dvol_specific_" ++ s := by
  intro hc
  have h2 := congrArg String.length hc
  rw [String.length_append] at h2
  have l1 : ("dvol_change" : String).length = 11 := by decide
  have l2 : ("dvol_specific_" : String).length = 14 := by decide
  rw [l1, l2] at h2
  omega

/-- C6: the volatility-index trend math — the signed percentage change is
`(current - previous)/previous`, guarded to 0 when `previous = 0`; the
absolute change is `current - previous`; the change alert condition holds
exactly when one of the two magnitudes strictly exceeds its configured
bound; the two worked examples hold; and in a cycle with a previous value,
the change alert is delivered exactly when that condition holds, the
`"dvol_change"` key is cooldown-eligible, alerting is enabled and delivery
succeeds. -/
theorem C6_dvol_trend_math (cfg : MonitorConfig) (m : Store) (current t previous : ℚ)
    (deliver : AlertEvent → Bool) (hprev : dvolPrevious m t = some previous) :
    (∀ p c : ℚ, p = 0 → pctChange p c = 0)
    ∧ (∀ p c : ℚ, p ≠ 0 → pctChange p c = (c - p) / p)
    ∧ (∀ p c : ℚ, absChange p c = c - p)
    ∧ (∀ p c : ℚ, dvolChangeCheck cfg p c = true ↔
        (cfg.dvolPctChange5m < |pctChange p c| ∨ cfg.dvolAbsChange5m < |absChange p c|))
    ∧ pctChange 50 55 = 1/10 ∧ absChange 50 55 = 5
    ∧ pctChange 0 5 = 0 ∧ absChange 0 5 = 5
    ∧ (AlertEvent.dvolChange ∈ (checkDvol cfg m current t deliver).2 ↔
        (dvolChangeCheck cfg previous current = true
          ∧ shouldAlert cfg m "dvol_change" t = true
          ∧ cfg.enableAlert = true
          ∧ deliver AlertEvent.dvolChange = true)) := by
  refine ⟨?_, ?_, ?_, ?_, ?_, ?_, ?_, ?_, ?_⟩
  · intro p c hp; simp [pctChange, hp]
  · intro p c hp; simp [pctChange, hp]
  · intro p c; rfl
  · intro p c; simp [dvolChangeCheck]
  · norm_num [pctChange]
  · norm_num [absChange]
  · norm_num [pctChange]
  · norm_num [absChange]
  · unfold checkDvol
    rw [hprev]
    unfold checkDvolBody
    have key_step :
        ∀ (S : Store),
          getLastAlertTime S "dvol_change" = getLastAlertTime m "dvol_change" →
          (AlertEvent.dvolChange ∈
            (if dvolChangeCheck cfg previous current = true then
              (alertStep cfg S "dvol_change" t (deliver .dvolChange) .dvolChange)
            else (S, ([] : List AlertEvent))).2 ↔
            (dvolChangeCheck cfg previous current = true
              ∧ shouldAlert cfg m "dvol_change" t = true
              ∧ cfg.enableAlert = true
              ∧ deliver AlertEvent.dvolChange = true)) := by
      intro S hS
      by_cases hch : dvolChangeCheck cfg previous current = true
      · rw [if_pos hch]
        rw [alertStep_mem_iff, shouldAlert_congr cfg m S _ t hS]
        constructor
        · rintro ⟨h1, h2, h3⟩; exact ⟨hch, h1, h2, h3⟩
        · rintro ⟨-, h1, h2, h3⟩; exact ⟨h1, h2, h3⟩
      · rw [if_neg hch]
        simp only [List.not_mem_nil, false_iff]
        intro hc
        exact hch hc.1
    cases hms : matchedSpecificValue cfg current with
    | none =>
        simp only []
        by_cases habs : dvolAbsValueCheck cfg.dvolAbsThreshold current = true
        · rw [if_pos habs]
          have hfr : getLastAlertTime
              (alertStep cfg m "dvol_abs_value" t (deliver .dvolAbsValue) .dvolAbsValue).1
              "dvol_change" = getLastAlertTime m "dvol_change" :=
            alertStep_frame cfg m _ t _ _ _ (by decide)
          have hnot := alertStep_not_mem cfg m "dvol_abs_value" t
            (deliver .dvolAbsValue) .dvolAbsValue .dvolChange (by simp)
          rw [List.nil_append]
          constructor
          · intro hmem
            rcases List.mem_append.1 hmem with hmem | hmem
            · exact absurd hmem hnot
            · exact (key_step _ hfr).1 (by simpa using hmem)
          · intro hcond
            exact List.mem_append.2 (Or.inr (by simpa using (key_step _ hfr).2 hcond))
        · rw [if_neg habs]
          rw [List.nil_append, List.nil_append]
          exact key_step m rfl
    | some target =>
        simp only []
        have hfr1 : getLastAlertTime
            (alertStep cfg m ("dvol_specific_" ++ toString target) t
              (deliver (.dvolSpecific target)) (.dvolSpecific target)).1
            "dvol_change" = getLastAlertTime m "dvol_change" :=
          alertStep_frame cfg m _ t _ _ _ (dvol_change_ne_specific _)
        have hnot1 := alertStep_not_mem cfg m ("dvol_specific_" ++ toString target) t
          (deliver (.dvolSpecific target)) (.dvolSpecific target) .dvolChange (by simp)
        by_cases habs : dvolAbsValueCheck cfg.dvolAbsThreshold current = true
        · rw [if_pos habs]
          set S1 := (alertStep cfg m ("dvol_specific_" ++ toString target) t
            (deliver (.dvolSpecific target)) (.dvolSpecific target)).1 with hS1
          have hfr2 : getLastAlertTime
              (alertStep cfg S1 "dvol_abs_value" t (deliver .dvolAbsValue) .dvolAbsValue).1
              "dvol_change" = getLastAlertTime m "dvol_change" := by
            rw [alertStep_frame cfg S1 _ t _ _ _ (by decide)]
            exact hfr1
          have hnot2 := alertStep_not_mem cfg S1 "dvol_abs_value" t
            (deliver .dvolAbsValue) .dvolAbsValue .dvolChange (by simp)
          constructor
          · intro hmem
            rcases List.mem_append.1 hmem with hmem | hmem
            · rcases List.mem_append.1 hmem with hmem | hmem
              · exact absurd hmem hnot1
              · exact absurd hmem hnot2
            · exact (key_step _ hfr2).1 (by simpa using hmem)
          · intro hcond
            exact List.mem_append.2 (Or.inr (by simpa using (key_step _ hfr2).2 hcond))
        · rw [if_neg habs]
          constructor
          · intro hmem
            rcases List.mem_append.1 hmem with hmem | hmem
            · rcases List.mem_append.1 hmem with hmem | hmem
              · exact absurd hmem hnot1
              · simp at hmem
            · exact (key_step _ hfr1).1 (by simpa using hmem)
          · intro hcond
            exact List.mem_append.2 (Or.inr (by simpa using (key_step _ hfr1).2 hcond))

/-- Witness for C6 at a concrete store holding a previous value of 50. -/
theorem C6_dvol_trend_math_witness :
    dvolPrevious [("dvol", StoredData.series none [⟨StoreValue.num 50, 800⟩])] 1000
      = some 50
    ∧ pctChange 50 55 = 1/10 ∧ absChange 50 55 = 5
    ∧ pctChange 0 5 = 0 ∧ absChange 0 5 = 5 := by
  have hp : dvolPrevious [("dvol", StoredData.series none [⟨StoreValue.num 50, 800⟩])] 1000
      = some 50 := by
    norm_num [dvolPrevious, getHistory, alookup, List.insertionSort, asNum]
  have happ := C6_dvol_trend_math witnessConfig
    [("dvol", StoredData.series none [⟨StoreValue.num 50, 800⟩])] 55 1000 50
    (fun _ => true) hp
  exact ⟨hp, happ.2.2.2.2.1, happ.2.2.2.2.2.1, happ.2.2.2.2.2.2.1, happ.2.2.2.2.2.2.2.1⟩

/- ------------------------------------------------------------------ -/
/- Client lemmas                                                      -/
/- ------------------------------------------------------------------ -/

theorem authenticate_requestId (A : Nat → Outcome) (T : Nat → Option Nat) (E : Nat → ℚ)
    (now : ℚ) (st : ClientState) (ai : Nat) :
    (authenticate A T E now st ai).1.requestId = st.requestId + 1 := by
  unfold authenticate
  cases h : A ai with
  | http200 r =>
      cases r with
      | result truthy => cases truthy <;> simp [attemptLoop, h]
      | rpcError c u => by_cases hae : isAuthError c u <;> simp [attemptLoop, h, hae]
  | httpError s => simp [attemptLoop, h]
  | timeout => simp [attemptLoop, h]
  | sslError => simp [attemptLoop, h]
  | requestError => simp [attemptLoop, h]
  | jsonDecodeError => simp [attemptLoop, h]
  | otherError => simp [attemptLoop, h]

theorem authenticate_events (A : Nat → Outcome) (T : Nat → Option Nat) (E : Nat → ℚ)
    (now : ℚ) (st : ClientState) (ai : Nat) :
    (authenticate A T E now st ai).2.2.1 = [ClientEvent.authAttempt (st.requestId + 1)] := by
  unfold authenticate
  cases h : A ai with
  | http200 r =>
      cases r with
      | result truthy => cases truthy <;> simp [attemptLoop, h, toAuthEvents]
      | rpcError c u =>
          by_cases hae : isAuthError c u <;> simp [attemptLoop, h, hae, toAuthEvents]
  | httpError s => simp [attemptLoop, h, toAuthEvents]
  | timeout => simp [attemptLoop, h, toAuthEvents]
  | sslError => simp [attemptLoop, h, toAuthEvents]
  | requestError => simp [attemptLoop, h, toAuthEvents]
  | jsonDecodeError => simp [attemptLoop, h, toAuthEvents]
  | otherError => simp [attemptLoop, h, toAuthEvents]

theorem authenticate_success_token (A : Nat → Outcome) (T : Nat → Option Nat)
    (E : Nat → ℚ) (now : ℚ) (st : ClientState) (ai : Nat)
    (h : (authenticate A T E now st ai).2.1 = true) :
    (authenticate A T E now st ai).1.token = T ai := by
  unfold authenticate at h ⊢
  cases ho : A ai with
  | http200 r =>
      cases r with
      | result truthy =>
          cases truthy
          · simp [attemptLoop, ho] at h
          · simp [attemptLoop, ho]
      | rpcError c u =>
          by_cases hae : isAuthError c u <;> simp [attemptLoop, ho, hae] at h
  | httpError s => simp [attemptLoop, ho] at h
  | timeout => simp [attemptLoop, ho] at h
  | sslError => simp [attemptLoop, ho] at h
  | requestError => simp [attemptLoop, ho] at h
  | jsonDecodeError => simp [attemptLoop, ho] at h
  | otherError => simp [attemptLoop, ho] at h

/-- One unfolding of the retry loop, stated as a definitional equation. -/
theorem attemptLoop_step (isPrivate : Bool)
    (doAuth : ClientState → Nat → ClientState × Bool × List ClientEvent × Nat)
    (oracle : Nat → Outcome) (reqId : Nat) (r attemptIdx : Nat) (st : ClientState)
    (authIdx : Nat) :
    attemptLoop isPrivate doAuth oracle reqId (r + 1) attemptIdx st authIdx =
      (let ev := ClientEvent.callAttempt reqId (if isPrivate then st.token else none)
       match oracle attemptIdx with
       | .http200 (.result truthy) => (.ok truthy, st, authIdx, [ev])
       | .http200 (.rpcError code unauthMsg) =>
           if isAuthError code unauthMsg then
             if isPrivate then
               let a := doAuth st authIdx
               if a.2.1 then
                 if r ≠ 0 then
                   let rr := attemptLoop isPrivate doAuth oracle reqId r
                     (attemptIdx + 1) a.1 a.2.2.2
                   (rr.1, rr.2.1, rr.2.2.1, ev :: (a.2.2.1 ++ rr.2.2.2))
                 else (.fail, a.1, a.2.2.2, ev :: a.2.2.1)
               else (.fail, a.1, a.2.2.2, ev :: a.2.2.1)
             else (.fail, st, authIdx, [ev])
           else (.fail, st, authIdx, [ev])
       | .httpError _ =>
           if r ≠ 0 then
             let rr := attemptLoop isPrivate doAuth oracle reqId r (attemptIdx + 1) st authIdx
             (rr.1, rr.2.1, rr.2.2.1, ev :: rr.2.2.2)
           else (.fail, st, authIdx, [ev])
       | .timeout =>
           if r ≠ 0 then
             let rr := attemptLoop isPrivate doAuth oracle reqId r (attemptIdx + 1) st authIdx
             (rr.1, rr.2.1, rr.2.2.1, ev :: rr.2.2.2)
           else (.fail, st, authIdx, [ev])
       | .sslError =>
           if r ≠ 0 then
             let rr := attemptLoop isPrivate doAuth oracle reqId r (attemptIdx + 1) st authIdx
             (rr.1, rr.2.1, rr.2.2.1, ev :: rr.2.2.2)
           else (.fail, st, authIdx, [ev])
       | .requestError =>
           if r ≠ 0 then
             let rr := attemptLoop isPrivate doAuth oracle reqId r (attemptIdx + 1) st authIdx
             (rr.1, rr.2.1, rr.2.2.1, ev :: rr.2.2.2)
           else (.fail, st, authIdx, [ev])
       | .jsonDecodeError => (.fail, st, authIdx, [ev])
       | .otherError =>
           if r ≠ 0 then
             let rr := attemptLoop isPrivate doAuth oracle reqId r (attemptIdx + 1) st authIdx
             (rr.1, rr.2.1, rr.2.2.1, ev :: rr.2.2.2)
           else (.fail, st, authIdx, [ev])) := rfl

theorem attemptLoop_timeout (isPrivate : Bool)
    (doAuth : ClientState → Nat → ClientState × Bool × List ClientEvent × Nat)
    (oracle : Nat → Outcome) (reqId : Nat) (ho : ∀ n, oracle n = Outcome.timeout) :
    ∀ (r attIdx : Nat) (st : ClientState) (ai : Nat),
      attemptLoop isPrivate doAuth oracle reqId r attIdx st ai
        = (.fail, st, ai,
            List.replicate r
              (ClientEvent.callAttempt reqId (if isPrivate then st.token else none))) := by
  intro r
  induction r with
  | zero => intro attIdx st ai; rfl
  | succ n ih =>
      intro attIdx st ai
      have step := attemptLoop_step isPrivate doAuth oracle reqId n attIdx st ai
      rw [ho attIdx] at step
      rw [step]
      cases n with
      | zero => rfl
      | succ k =>
          show ((attemptLoop isPrivate doAuth oracle reqId (k + 1) (attIdx + 1) st ai).1,
              (attemptLoop isPrivate doAuth oracle reqId (k + 1) (attIdx + 1) st ai).2.1,
              (attemptLoop isPrivate doAuth oracle reqId (k + 1) (attIdx + 1) st ai).2.2.1,
              ClientEvent.callAttempt reqId (if isPrivate then st.token else none)
                :: (attemptLoop isPrivate doAuth oracle reqId (k + 1) (attIdx + 1) st ai).2.2.2)
            = _
          rw [ih (attIdx + 1) st ai]
          simp [List.replicate_succ]

/-- C4 counterexample: with the default 3 retries, a private call whose
every transmission attempt (including the authentication sub-call's single
attempt) times out while no valid token is held performs exactly one
authentication transport attempt and zero transport attempts of the call
itself — not one authentication attempt plus three call attempts. -/
theorem C4_counterexample :
    countAuthAttempts
        (makeRequest true (fun _ => Outcome.timeout) (fun _ => Outcome.timeout)
          (fun _ => some 7) (fun _ => 3600) 100 3 ⟨none, 0, 0⟩ 0).2.2.2 = 1
    ∧ countCallAttempts
        (makeRequest true (fun _ => Outcome.timeout) (fun _ => Outcome.timeout)
          (fun _ => some 7) (fun _ => 3600) 100 3 ⟨none, 0, 0⟩ 0).2.2.2 = 0
    ∧ (makeRequest true (fun _ => Outcome.timeout) (fun _ => Outcome.timeout)
          (fun _ => some 7) (fun _ => 3600) 100 3 ⟨none, 0, 0⟩ 0).1 = CallResult.fail := by
  refine ⟨rfl, rfl, rfl⟩

/-- C4 (amended): for a private call in which every transmission attempt
times out, with the default 3 retries: if the client holds no valid
(non-expired) token it performs exactly one authentication transport
attempt and zero transport attempts of the call, then fails; if it holds a
valid token it performs zero authentication attempts and exactly 3
transport attempts of the call, then fails.  In neither case are more
attempts made; the combination claimed by the specification — one
authentication attempt plus three call attempts — never occurs. -/
theorem C4_retry_exhaustion (oracle authOracle : Nat → Outcome)
    (tokenOf : Nat → Option Nat) (expiresIn : Nat → ℚ) (now : ℚ) (st : ClientState)
    (ai : Nat) (ho : ∀ n, oracle n = Outcome.timeout)
    (ha : ∀ n, authOracle n = Outcome.timeout) :
    (makeRequest true oracle authOracle tokenOf expiresIn now 3 st ai).1 = CallResult.fail
    ∧ (st.token = none ∨ st.tokenExpiresAt ≤ now →
        countAuthAttempts
          (makeRequest true oracle authOracle tokenOf expiresIn now 3 st ai).2.2.2 = 1
        ∧ countCallAttempts
          (makeRequest true oracle authOracle tokenOf expiresIn now 3 st ai).2.2.2 = 0)
    ∧ (¬ (st.token = none ∨ st.tokenExpiresAt ≤ now) →
        countAuthAttempts
          (makeRequest true oracle authOracle tokenOf expiresIn now 3 st ai).2.2.2 = 0
        ∧ countCallAttempts
          (makeRequest true oracle authOracle tokenOf expiresIn now 3 st ai).2.2.2 = 3) := by
  by_cases hv : st.token = none ∨ st.tokenExpiresAt ≤ now
  · have hauth : authenticate authOracle tokenOf expiresIn now st ai
        = ({ st with requestId := st.requestId + 1 }, false,
            [ClientEvent.authAttempt (st.requestId + 1)], ai + 1) := by
      have hloop := attemptLoop_timeout false (fun s a => (s, false, [], a))
        (fun _ => authOracle ai) (st.requestId + 1) (fun _ => ha ai) 1 0
        { st with requestId := st.requestId + 1 } 0
      simp [authenticate, hloop, toAuthEvents]
    have hmr : makeRequest true oracle authOracle tokenOf expiresIn now 3 st ai
        = (.fail, { st with requestId := st.requestId + 1 }, ai + 1,
            [ClientEvent.authAttempt (st.requestId + 1)]) := by
      simp only [makeRequest]
      rw [if_pos (by exact ⟨by trivial, hv⟩)]
      simp [hauth]
    rw [hmr]
    exact ⟨rfl, fun _ => ⟨rfl, rfl⟩, fun hc => absurd hv hc⟩
  · have hloop := attemptLoop_timeout true
      (authenticate authOracle tokenOf expiresIn now) oracle (st.requestId + 1) ho 3 0
      { st with requestId := st.requestId + 1 } ai
    have hmr : makeRequest true oracle authOracle tokenOf expiresIn now 3 st ai
        = (.fail, { st with requestId := st.requestId + 1 }, ai,
            List.replicate 3
              (ClientEvent.callAttempt (st.requestId + 1) st.token)) := by
      simp only [makeRequest]
      rw [if_neg (by simp [hv])]
      simp [hloop]
    rw [hmr]
    exact ⟨rfl, fun hc => absurd hc hv, fun _ => ⟨rfl, rfl⟩⟩

/-- Witness for C4 (amended): concrete all-timeout oracles with a valid
token held. -/
theorem C4_retry_exhaustion_witness :
    (∀ n : Nat, (fun _ : Nat => Outcome.timeout) n = Outcome.timeout)
    ∧ ((makeRequest true (fun _ => Outcome.timeout) (fun _ => Outcome.timeout)
          (fun _ => some 7) (fun _ => 3600) 100 3 ⟨some 5, 500, 0⟩ 0).1 = CallResult.fail
      ∧ ((⟨some 5, 500, 0⟩ : ClientState).token = none
            ∨ (⟨some 5, 500, 0⟩ : ClientState).tokenExpiresAt ≤ 100 →
          countAuthAttempts
            (makeRequest true (fun _ => Outcome.timeout) (fun _ => Outcome.timeout)
              (fun _ => some 7) (fun _ => 3600) 100 3 ⟨some 5, 500, 0⟩ 0).2.2.2 = 1
          ∧ countCallAttempts
            (makeRequest true (fun _ => Outcome.timeout) (fun _ => Outcome.timeout)
              (fun _ => some 7) (fun _ => 3600) 100 3 ⟨some 5, 500, 0⟩ 0).2.2.2 = 0)
      ∧ (¬ ((⟨some 5, 500, 0⟩ : ClientState).token = none
            ∨ (⟨some 5, 500, 0⟩ : ClientState).tokenExpiresAt ≤ 100) →
          countAuthAttempts
            (makeRequest true (fun _ => Outcome.timeout) (fun _ => Outcome.timeout)
              (fun _ => some 7) (fun _ => 3600) 100 3 ⟨some 5, 500, 0⟩ 0).2.2.2 = 0
          ∧ countCallAttempts
            (makeRequest true (fun _ => Outcome.timeout) (fun _ => Outcome.timeout)
              (fun _ => some 7) (fun _ => 3600) 100 3 ⟨some 5, 500, 0⟩ 0).2.2.2 = 3)) :=
  ⟨fun _ => rfl,
    C4_retry_exhaustion (fun _ => Outcome.timeout) (fun _ => Outcome.timeout)
      (fun _ => some 7) (fun _ => 3600) 100 ⟨some 5, 500, 0⟩ 0
      (fun _ => rfl) (fun _ => rfl)⟩

theorem attemptLoop_events_head (isPrivate : Bool)
    (doAuth : ClientState → Nat → ClientState × Bool × List ClientEvent × Nat)
    (oracle : Nat → Outcome) (reqId : Nat) (k attIdx : Nat) (st : ClientState)
    (ai : Nat) :
    ((attemptLoop isPrivate doAuth oracle reqId (k + 1) attIdx st ai).2.2.2).head?
      = some (ClientEvent.callAttempt reqId (if isPrivate then st.token else none)) := by
  rw [attemptLoop_step]
  cases ho : oracle attIdx with
  | http200 rsp =>
      cases rsp with
      | result truthy => rfl
      | rpcError c u =>
          dsimp only []
          split_ifs <;> rfl
  | httpError s =>
      dsimp only []
      split_ifs <;> rfl
  | timeout =>
      dsimp only []
      split_ifs <;> rfl
  | sslError =>
      dsimp only []
      split_ifs <;> rfl
  | requestError =>
      dsimp only []
      split_ifs <;> rfl
  | jsonDecodeError => rfl
  | otherError =>
      dsimp only []
      split_ifs <;> rfl

/-- C5: on a transport-level success carrying an application error, a
private call behaves as follows.  If the error code does not indicate an
invalid/expired session token, the call fails immediately with no further
attempt.  If it does, the client re-authenticates exactly once (one
authentication transport attempt); if re-authentication fails the call
fails; if it succeeds but no attempts remain the call fails; if it
succeeds and attempts remain, the loop continues into a retry of the same
call (same request identifier) whose next transport attempt carries the
refreshed token. -/
theorem C5_reauth_on_stale_token (oracle authOracle : Nat → Outcome)
    (tokenOf : Nat → Option Nat) (expiresIn : Nat → ℚ) (now : ℚ) (reqId : Nat)
    (r attemptIdx : Nat) (st : ClientState) (ai : Nat) (code : Int) (unauthMsg : Bool)
    (hstep : oracle attemptIdx = .http200 (.rpcError code unauthMsg)) :
    (¬ isAuthError code unauthMsg →
      attemptLoop true (authenticate authOracle tokenOf expiresIn now) oracle reqId
          (r + 1) attemptIdx st ai
        = (.fail, st, ai, [ClientEvent.callAttempt reqId st.token]))
    ∧ (isAuthError code unauthMsg →
        countAuthAttempts
            (authenticate authOracle tokenOf expiresIn now st ai).2.2.1 = 1
        ∧ ((authenticate authOracle tokenOf expiresIn now st ai).2.1 = false →
            attemptLoop true (authenticate authOracle tokenOf expiresIn now) oracle reqId
                (r + 1) attemptIdx st ai
              = (.fail, (authenticate authOracle tokenOf expiresIn now st ai).1,
                  (authenticate authOracle tokenOf expiresIn now st ai).2.2.2,
                  ClientEvent.callAttempt reqId st.token ::
                    (authenticate authOracle tokenOf expiresIn now st ai).2.2.1))
        ∧ ((authenticate authOracle tokenOf expiresIn now st ai).2.1 = true → r = 0 →
            attemptLoop true (authenticate authOracle tokenOf expiresIn now) oracle reqId
                (r + 1) attemptIdx st ai
              = (.fail, (authenticate authOracle tokenOf expiresIn now st ai).1,
                  (authenticate authOracle tokenOf expiresIn now st ai).2.2.2,
                  ClientEvent.callAttempt reqId st.token ::
                    (authenticate authOracle tokenOf expiresIn now st ai).2.2.1))
        ∧ ((authenticate authOracle tokenOf expiresIn now st ai).2.1 = true → r ≠ 0 →
            (authenticate authOracle tokenOf expiresIn now st ai).1.token = tokenOf ai
            ∧ attemptLoop true (authenticate authOracle tokenOf expiresIn now) oracle reqId
                  (r + 1) attemptIdx st ai
                = ((attemptLoop true (authenticate authOracle tokenOf expiresIn now)
                      oracle reqId r (attemptIdx + 1)
                      (authenticate authOracle tokenOf expiresIn now st ai).1
                      (authenticate authOracle tokenOf expiresIn now st ai).2.2.2).1,
                    (attemptLoop true (authenticate authOracle tokenOf expiresIn now)
                      oracle reqId r (attemptIdx + 1)
                      (authenticate authOracle tokenOf expiresIn now st ai).1
                      (authenticate authOracle tokenOf expiresIn now st ai).2.2.2).2.1,
                    (attemptLoop true (authenticate authOracle tokenOf expiresIn now)
                      oracle reqId r (attemptIdx + 1)
                      (authenticate authOracle tokenOf expiresIn now st ai).1
                      (authenticate authOracle tokenOf expiresIn now st ai).2.2.2).2.2.1,
                    ClientEvent.callAttempt reqId st.token ::
                      ((authenticate authOracle tokenOf expiresIn now st ai).2.2.1 ++
                        (attemptLoop true (authenticate authOracle tokenOf expiresIn now)
                          oracle reqId r (attemptIdx + 1)
                          (authenticate authOracle tokenOf expiresIn now st ai).1
                          (authenticate authOracle tokenOf expiresIn now st ai).2.2.2).2.2.2))
            ∧ ((attemptLoop true (authenticate authOracle tokenOf expiresIn now)
                  oracle reqId r (attemptIdx + 1)
                  (authenticate authOracle tokenOf expiresIn now st ai).1
                  (authenticate authOracle tokenOf expiresIn now st ai).2.2.2).2.2.2).head?
                = some (ClientEvent.callAttempt reqId (tokenOf ai)))) := by
  have step := attemptLoop_step true (authenticate authOracle tokenOf expiresIn now)
    oracle reqId r attemptIdx st ai
  rw [hstep] at step
  dsimp only [] at step
  simp only [reduceIte] at step
  constructor
  · intro hne
    rw [step, if_neg hne]
  · intro hae
    refine ⟨by rw [authenticate_events]; rfl, ?_, ?_, ?_⟩
    · intro hfail
      rw [step, if_pos hae, hfail]
      rw [if_neg (by simp)]
    · intro hok hr0
      subst hr0
      rw [step, if_pos hae, hok]
      rw [if_pos rfl]
      rw [if_neg (by simp)]
    · intro hok hr
      refine ⟨authenticate_success_token authOracle tokenOf expiresIn now st ai hok,
        ?_, ?_⟩
      · rw [step, if_pos hae, hok]
        rw [if_pos rfl, if_pos hr]
      · obtain ⟨k, rfl⟩ := Nat.exists_eq_succ_of_ne_zero hr
        rw [attemptLoop_events_head]
        rw [authenticate_success_token authOracle tokenOf expiresIn now st ai hok]
        rfl

/-- Witness for C5: a concrete oracle reporting a stale-token error on its
first attempt, with a successful re-authentication. -/
theorem C5_reauth_on_stale_token_witness :
    ((fun _ : Nat => Outcome.http200 (RpcResp.rpcError 13009 true)) 0
        = Outcome.http200 (RpcResp.rpcError 13009 true))
    ∧ ((¬ isAuthError 13009 true →
        attemptLoop true
            (authenticate (fun _ => Outcome.http200 (RpcResp.result true))
              (fun n => some (n + 40)) (fun _ => 3600) 100)
            (fun _ => Outcome.http200 (RpcResp.rpcError 13009 true)) 5
            (2 + 1) 0 ⟨some 9, 50, 4⟩ 0
          = (.fail, ⟨some 9, 50, 4⟩, 0, [ClientEvent.callAttempt 5 (some 9)]))
      ∧ (isAuthError 13009 true →
          countAuthAttempts
              (authenticate (fun _ => Outcome.http200 (RpcResp.result true))
                (fun n => some (n + 40)) (fun _ => 3600) 100 ⟨some 9, 50, 4⟩ 0).2.2.1 = 1
          ∧ ((authenticate (fun _ => Outcome.http200 (RpcResp.result true))
                (fun n => some (n + 40)) (fun _ => 3600) 100 ⟨some 9, 50, 4⟩ 0).2.1 = false →
              attemptLoop true
                  (authenticate (fun _ => Outcome.http200 (RpcResp.result true))
                    (fun n => some (n + 40)) (fun _ => 3600) 100)
                  (fun _ => Outcome.http200 (RpcResp.rpcError 13009 true)) 5
                  (2 + 1) 0 ⟨some 9, 50, 4⟩ 0
                = (.fail,
                    (authenticate (fun _ => Outcome.http200 (RpcResp.result true))
                      (fun n => some (n + 40)) (fun _ => 3600) 100 ⟨some 9, 50, 4⟩ 0).1,
                    (authenticate (fun _ => Outcome.http200 (RpcResp.result true))
                      (fun n => some (n + 40)) (fun _ => 3600) 100 ⟨some 9, 50, 4⟩ 0).2.2.2,
                    ClientEvent.callAttempt 5 (some 9) ::
                      (authenticate (fun _ => Outcome.http200 (RpcResp.result true))
                        (fun n => some (n + 40)) (fun _ => 3600) 100
                        ⟨some 9, 50, 4⟩ 0).2.2.1))
          ∧ ((authenticate (fun _ => Outcome.http200 (RpcResp.result true))
                (fun n => some (n + 40)) (fun _ => 3600) 100 ⟨some 9, 50, 4⟩ 0).2.1 = true →
              (2 : Nat) = 0 →
              attemptLoop true
                  (authenticate (fun _ => Outcome.http200 (RpcResp.result true))
                    (fun n => some (n + 40)) (fun _ => 3600) 100)
                  (fun _ => Outcome.http200 (RpcResp.rpcError 13009 true)) 5
                  (2 + 1) 0 ⟨some 9, 50, 4⟩ 0
                = (.fail,
                    (authenticate (fun _ => Outcome.http200 (RpcResp.result true))
                      (fun n => some (n + 40)) (fun _ => 3600) 100 ⟨some 9, 50, 4⟩ 0).1,
                    (authenticate (fun _ => Outcome.http200 (RpcResp.result true))
                      (fun n => some (n + 40)) (fun _ => 3600) 100 ⟨some 9, 50, 4⟩ 0).2.2.2,
                    ClientEvent.callAttempt 5 (some 9) ::
                      (authenticate (fun _ => Outcome.http200 (RpcResp.result true))
                        (fun n => some (n + 40)) (fun _ => 3600) 100
                        ⟨some 9, 50, 4⟩ 0).2.2.1))
          ∧ ((authenticate (fun _ => Outcome.http200 (RpcResp.result true))
                (fun n => some (n + 40)) (fun _ => 3600) 100 ⟨some 9, 50, 4⟩ 0).2.1 = true →
              (2 : Nat) ≠ 0 →
              (authenticate (fun _ => Outcome.http200 (RpcResp.result true))
                  (fun n => some (n + 40)) (fun _ => 3600) 100 ⟨some 9, 50, 4⟩ 0).1.token
                = some (0 + 40)
              ∧ attemptLoop true
                    (authenticate (fun _ => Outcome.http200 (RpcResp.result true))
                      (fun n => some (n + 40)) (fun _ => 3600) 100)
                    (fun _ => Outcome.http200 (RpcResp.rpcError 13009 true)) 5
                    (2 + 1) 0 ⟨some 9, 50, 4⟩ 0
                  = ((attemptLoop true
                        (authenticate (fun _ => Outcome.http200 (RpcResp.result true))
                          (fun n => some (n + 40)) (fun _ => 3600) 100)
                        (fun _ => Outcome.http200 (RpcResp.rpcError 13009 true)) 5 2 (0 + 1)
                        (authenticate (fun _ => Outcome.http200 (RpcResp.result true))
                          (fun n => some (n + 40)) (fun _ => 3600) 100 ⟨some 9, 50, 4⟩ 0).1
                        (authenticate (fun _ => Outcome.http200 (RpcResp.result true))
                          (fun n => some (n + 40)) (fun _ => 3600) 100
                          ⟨some 9, 50, 4⟩ 0).2.2.2).1,
                      (attemptLoop true
                        (authenticate (fun _ => Outcome.http200 (RpcResp.result true))
                          (fun n => some (n + 40)) (fun _ => 3600) 100)
                        (fun _ => Outcome.http200 (RpcResp.rpcError 13009 true)) 5 2 (0 + 1)
                        (authenticate (fun _ => Outcome.http200 (RpcResp.result true))
                          (fun n => some (n + 40)) (fun _ => 3600) 100 ⟨some 9, 50, 4⟩ 0).1
                        (authenticate (fun _ => Outcome.http200 (RpcResp.result true))
                          (fun n => some (n + 40)) (fun _ => 3600) 100
                          ⟨some 9, 50, 4⟩ 0).2.2.2).2.1,
                      (attemptLoop true
                        (authenticate (fun _ => Outcome.http200 (RpcResp.result true))
                          (fun n => some (n + 40)) (fun _ => 3600) 100)
                        (fun _ => Outcome.http200 (RpcResp.rpcError 13009 true)) 5 2 (0 + 1)
                        (authenticate (fun _ => Outcome.http200 (RpcResp.result true))
                          (fun n => some (n + 40)) (fun _ => 3600) 100 ⟨some 9, 50, 4⟩ 0).1
                        (authenticate (fun _ => Outcome.http200 (RpcResp.result true))
                          (fun n => some (n + 40)) (fun _ => 3600) 100
                          ⟨some 9, 50, 4⟩ 0).2.2.2).2.2.1,
                      ClientEvent.callAttempt 5 (some 9) ::
                        ((authenticate (fun _ => Outcome.http200 (RpcResp.result true))
                            (fun n => some (n + 40)) (fun _ => 3600) 100
                            ⟨some 9, 50, 4⟩ 0).2.2.1 ++
                          (attemptLoop true
                            (authenticate (fun _ => Outcome.http200 (RpcResp.result true))
                              (fun n => some (n + 40)) (fun _ => 3600) 100)
                            (fun _ => Outcome.http200 (RpcResp.rpcError 13009 true)) 5 2
                            (0 + 1)
                            (authenticate (fun _ => Outcome.http200 (RpcResp.result true))
                              (fun n => some (n + 40)) (fun _ => 3600) 100
                              ⟨some 9, 50, 4⟩ 0).1
                            (authenticate (fun _ => Outcome.http200 (RpcResp.result true))
                              (fun n => some (n + 40)) (fun _ => 3600) 100
                              ⟨some 9, 50, 4⟩ 0).2.2.2).2.2.2))
              ∧ ((attemptLoop true
                    (authenticate (fun _ => Outcome.http200 (RpcResp.result true))
                      (fun n => some (n + 40)) (fun _ => 3600) 100)
                    (fun _ => Outcome.http200 (RpcResp.rpcError 13009 true)) 5 2 (0 + 1)
                    (authenticate (fun _ => Outcome.http200 (RpcResp.result true))
                      (fun n => some (n + 40)) (fun _ => 3600) 100 ⟨some 9, 50, 4⟩ 0).1
                    (authenticate (fun _ => Outcome.http200 (RpcResp.result true))
                      (fun n => some (n + 40)) (fun _ => 3600) 100
                      ⟨some 9, 50, 4⟩ 0).2.2.2).2.2.2).head?
                  = some (ClientEvent.callAttempt 5 (some (0 + 40)))))) :=
  ⟨rfl,
    C5_reauth_on_stale_token
      (fun _ => Outcome.http200 (RpcResp.rpcError 13009 true))
      (fun _ => Outcome.http200 (RpcResp.result true))
      (fun n => some (n + 40)) (fun _ => 3600) 100 5 2 0 ⟨some 9, 50, 4⟩ 0 13009 true rfl⟩

theorem authIds_cons_call (i : Nat) (tok : Option Nat) (tr : List ClientEvent) :
    authIds (ClientEvent.callAttempt i tok :: tr) = authIds tr := rfl

theorem authIds_cons_auth (j : Nat) (tr : List ClientEvent) :
    authIds (ClientEvent.authAttempt j :: tr) = j :: authIds tr := rfl

theorem authIds_append (a b : List ClientEvent) :
    authIds (a ++ b) = authIds a ++ authIds b :=
  List.filterMap_append a b _

theorem mem_authIds (tr : List ClientEvent) (x : Nat) :
    x ∈ authIds tr ↔ ClientEvent.authAttempt x ∈ tr := by
  induction tr with
  | nil => simp [authIds]
  | cons e rest ih =>
      cases e with
      | authAttempt j => simp [authIds_cons_auth, ih]
      | callAttempt i tok => simp [authIds_cons_call, ih]

theorem allIds_append (a b : List ClientEvent) :
    allIds (a ++ b) = allIds a ++ allIds b :=
  List.map_append _ a b

theorem mem_allIds (tr : List ClientEvent) (i : Nat) :
    i ∈ allIds tr ↔
      (∃ tok, ClientEvent.callAttempt i tok ∈ tr) ∨ ClientEvent.authAttempt i ∈ tr := by
  induction tr with
  | nil => simp [allIds]
  | cons e rest ih =>
      cases e with
      | authAttempt j =>
          simp only [allIds, List.map_cons, List.mem_cons] at ih ⊢
          constructor
          · rintro (rfl | h)
            · exact Or.inr (Or.inl rfl)
            · rcases ih.1 h with ⟨tok, htok⟩ | h2
              · exact Or.inl ⟨tok, Or.inr htok⟩
              · exact Or.inr (Or.inr h2)
          · rintro (⟨tok, htok | htok⟩ | (hh | h2))
            · cases htok
            · exact Or.inr (ih.2 (Or.inl ⟨tok, htok⟩))
            · cases hh; exact Or.inl rfl
            · exact Or.inr (ih.2 (Or.inr h2))
      | callAttempt k tok0 =>
          simp only [allIds, List.map_cons, List.mem_cons] at ih ⊢
          constructor
          · rintro (rfl | h)
            · exact Or.inl ⟨tok0, Or.inl rfl⟩
            · rcases ih.1 h with ⟨tok, htok⟩ | h2
              · exact Or.inl ⟨tok, Or.inr htok⟩
              · exact Or.inr (Or.inr h2)
          · rintro (⟨tok, htok | htok⟩ | (hh | h2))
            · cases htok; exact Or.inl rfl
            · exact Or.inr (ih.2 (Or.inl ⟨tok, htok⟩))
            · cases hh
            · exact Or.inr (ih.2 (Or.inr h2))

theorem ids_single (reqId : Nat) (st : ClientState) (ai : Nat) (res : CallResult)
    (tok : Option Nat) :
    st.requestId ≤ ((res, st, ai, [ClientEvent.callAttempt reqId tok]) :
        CallResult × ClientState × Nat × List ClientEvent).2.1.requestId
    ∧ (∀ i tok', ClientEvent.callAttempt i tok'
          ∈ ((res, st, ai, [ClientEvent.callAttempt reqId tok]) :
            CallResult × ClientState × Nat × List ClientEvent).2.2.2 → i = reqId)
    ∧ (∀ j, ClientEvent.authAttempt j
          ∈ ((res, st, ai, [ClientEvent.callAttempt reqId tok]) :
            CallResult × ClientState × Nat × List ClientEvent).2.2.2 →
        st.requestId < j
          ∧ j ≤ ((res, st, ai, [ClientEvent.callAttempt reqId tok]) :
              CallResult × ClientState × Nat × List ClientEvent).2.1.requestId)
    ∧ List.Pairwise (· < ·)
        (authIds ((res, st, ai, [ClientEvent.callAttempt reqId tok]) :
          CallResult × ClientState × Nat × List ClientEvent).2.2.2) := by
  refine ⟨le_refl _, ?_, ?_, ?_⟩
  · intro i tok' h
    simp only [List.mem_singleton] at h
    injection h
  · intro j h
    simp at h
  · simp [authIds]

theorem ids_auth_short (A : Nat → Outcome) (T : Nat → Option Nat) (E : Nat → ℚ)
    (now : ℚ) (st : ClientState) (ai : Nat) (reqId : Nat) (tok : Option Nat)
    (res : CallResult) :
    st.requestId ≤ ((res, (authenticate A T E now st ai).1,
        (authenticate A T E now st ai).2.2.2,
        ClientEvent.callAttempt reqId tok :: (authenticate A T E now st ai).2.2.1) :
          CallResult × ClientState × Nat × List ClientEvent).2.1.requestId
    ∧ (∀ i tok', ClientEvent.callAttempt i tok'
          ∈ ((res, (authenticate A T E now st ai).1,
              (authenticate A T E now st ai).2.2.2,
              ClientEvent.callAttempt reqId tok :: (authenticate A T E now st ai).2.2.1) :
            CallResult × ClientState × Nat × List ClientEvent).2.2.2 → i = reqId)
    ∧ (∀ j, ClientEvent.authAttempt j
          ∈ ((res, (authenticate A T E now st ai).1,
              (authenticate A T E now st ai).2.2.2,
              ClientEvent.callAttempt reqId tok :: (authenticate A T E now st ai).2.2.1) :
            CallResult × ClientState × Nat × List ClientEvent).2.2.2 →
        st.requestId < j
          ∧ j ≤ ((res, (authenticate A T E now st ai).1,
              (authenticate A T E now st ai).2.2.2,
              ClientEvent.callAttempt reqId tok :: (authenticate A T E now st ai).2.2.1) :
            CallResult × ClientState × Nat × List ClientEvent).2.1.requestId)
    ∧ List.Pairwise (· < ·)
        (authIds ((res, (authenticate A T E now st ai).1,
            (authenticate A T E now st ai).2.2.2,
            ClientEvent.callAttempt reqId tok :: (authenticate A T E now st ai).2.2.1) :
          CallResult × ClientState × Nat × List ClientEvent).2.2.2) := by
  have hA1 := authenticate_requestId A T E now st ai
  have hAe := authenticate_events A T E now st ai
  refine ⟨by rw [hA1]; omega, ?_, ?_, ?_⟩
  · intro i tok' h
    rcases List.mem_cons.1 h with hh | h2
    · injection hh
    · rw [hAe] at h2
      simp only [List.mem_singleton] at h2
      exact absurd h2 (by simp)
  · intro j h
    rcases List.mem_cons.1 h with hh | h2
    · exact absurd hh (by simp)
    · rw [hAe] at h2
      simp only [List.mem_singleton] at h2
      injection h2 with h1
      subst h1
      exact ⟨by omega, by rw [hA1]⟩
  · rw [authIds_cons_call, hAe, authIds_cons_auth]
    simp [authIds]

theorem attemptLoop_ids (isPrivate : Bool) (A : Nat → Outcome) (T : Nat → Option Nat)
    (E : Nat → ℚ) (now : ℚ) (oracle : Nat → Outcome) (reqId : Nat) :
    ∀ (r attIdx : Nat) (st : ClientState) (ai : Nat), reqId ≤ st.requestId →
      st.requestId ≤ (attemptLoop isPrivate (authenticate A T E now) oracle reqId r
          attIdx st ai).2.1.requestId
      ∧ (∀ i tok, ClientEvent.callAttempt i tok
            ∈ (attemptLoop isPrivate (authenticate A T E now) oracle reqId r
                attIdx st ai).2.2.2 → i = reqId)
      ∧ (∀ j, ClientEvent.authAttempt j
            ∈ (attemptLoop isPrivate (authenticate A T E now) oracle reqId r
                attIdx st ai).2.2.2 →
          st.requestId < j
            ∧ j ≤ (attemptLoop isPrivate (authenticate A T E now) oracle reqId r
                attIdx st ai).2.1.requestId)
      ∧ List.Pairwise (· < ·)
          (authIds (attemptLoop isPrivate (authenticate A T E now) oracle reqId r
            attIdx st ai).2.2.2) := by
  intro r
  induction r with
  | zero =>
      intro attIdx st ai hreq
      refine ⟨le_refl _, ?_, ?_, ?_⟩
      · intro i tok h
        simp [attemptLoop] at h
      · intro j h
        simp [attemptLoop] at h
      · simp [attemptLoop, authIds]
  | succ n ih =>
      intro attIdx st ai hreq
      have step := attemptLoop_step isPrivate (authenticate A T E now) oracle reqId n
        attIdx st ai
      cases ho : oracle attIdx with
      | http200 rsp =>
          cases rsp with
          | result truthy =>
              rw [ho] at step
              dsimp only [] at step
              rw [step]
              exact ids_single reqId st ai _ _
          | rpcError c u =>
              rw [ho] at step
              dsimp only [] at step
              by_cases hae : isAuthError c u
              · rw [step, if_pos hae]
                by_cases hp : isPrivate = true
                · rw [if_pos hp]
                  have hA1 := authenticate_requestId A T E now st ai
                  have hAe := authenticate_events A T E now st ai
                  by_cases hok : (authenticate A T E now st ai).2.1 = true
                  · rw [hok, if_pos rfl]
                    by_cases hn : n = 0
                    · rw [if_neg (by simp [hn])]
                      exact ids_auth_short A T E now st ai reqId _ _
                    · rw [if_pos hn]
                      have hreq' : reqId ≤ (authenticate A T E now st ai).1.requestId := by
                        rw [hA1]; omega
                      obtain ⟨ih1, ih2, ih3, ih4⟩ := ih (attIdx + 1)
                        (authenticate A T E now st ai).1
                        (authenticate A T E now st ai).2.2.2 hreq'
                      rw [hAe]
                      refine ⟨?_, ?_, ?_, ?_⟩
                      · calc st.requestId ≤ st.requestId + 1 := by omega
                          _ = (authenticate A T E now st ai).1.requestId := hA1.symm
                          _ ≤ _ := ih1
                      · intro i tok h
                        rcases List.mem_cons.1 h with hh | h2
                        · injection hh
                        · rcases List.mem_append.1 h2 with h3 | h4
                          · simp only [List.mem_singleton] at h3
                            exact absurd h3 (by simp)
                          · exact ih2 i tok h4
                      · intro j h
                        rcases List.mem_cons.1 h with hh | h2
                        · exact absurd hh (by simp)
                        · rcases List.mem_append.1 h2 with h3 | h4
                          · simp only [List.mem_singleton] at h3
                            injection h3 with h1
                            subst h1
                            refine ⟨by omega, ?_⟩
                            calc (st.requestId + 1 : Nat)
                                = (authenticate A T E now st ai).1.requestId := hA1.symm
                              _ ≤ _ := ih1
                          · obtain ⟨hlo, hhi⟩ := ih3 j h4
                            exact ⟨by rw [hA1] at hlo; omega, hhi⟩
                      · have heq : authIds (ClientEvent.callAttempt reqId
                            (if isPrivate then st.token else none) ::
                              ([ClientEvent.authAttempt (st.requestId + 1)] ++
                                (attemptLoop isPrivate (authenticate A T E now) oracle
                                  reqId n (attIdx + 1)
                                  (authenticate A T E now st ai).1
                                  (authenticate A T E now st ai).2.2.2).2.2.2))
                            = (st.requestId + 1) ::
                                authIds (attemptLoop isPrivate (authenticate A T E now)
                                  oracle reqId n (attIdx + 1)
                                  (authenticate A T E now st ai).1
                                  (authenticate A T E now st ai).2.2.2).2.2.2 := by
                          rw [authIds_cons_call, authIds_append, authIds_cons_auth]
                          simp [authIds]
                        rw [heq]
                        refine List.pairwise_cons.2 ⟨?_, ih4⟩
                        intro x hx
                        obtain ⟨hlo, _⟩ := ih3 x ((mem_authIds _ _).1 hx)
                        rw [hA1] at hlo
                        omega
                  · rw [if_neg (by simp [hok])]
                    exact ids_auth_short A T E now st ai reqId _ _
                · rw [if_neg hp]
                  exact ids_single reqId st ai _ _
              · rw [step, if_neg hae]
                exact ids_single reqId st ai _ _
      | httpError s =>
          rw [ho] at step
          dsimp only [] at step
          by_cases hn : n = 0
          · rw [step, if_neg (by simp [hn])]
            exact ids_single reqId st ai _ _
          · rw [step, if_pos hn]
            obtain ⟨ih1, ih2, ih3, ih4⟩ := ih (attIdx + 1) st ai hreq
            refine ⟨ih1, ?_, ?_, ?_⟩
            · intro i tok h
              rcases List.mem_cons.1 h with hh | h2
              · injection hh
              · exact ih2 i tok h2
            · intro j h
              rcases List.mem_cons.1 h with hh | h2
              · exact absurd hh (by simp)
              · exact ih3 j h2
            · rw [authIds_cons_call]
              exact ih4
      | timeout =>
          rw [ho] at step
          dsimp only [] at step
          by_cases hn : n = 0
          · rw [step, if_neg (by simp [hn])]
            exact ids_single reqId st ai _ _
          · rw [step, if_pos hn]
            obtain ⟨ih1, ih2, ih3, ih4⟩ := ih (attIdx + 1) st ai hreq
            refine ⟨ih1, ?_, ?_, ?_⟩
            · intro i tok h
              rcases List.mem_cons.1 h with hh | h2
              · injection hh
              · exact ih2 i tok h2
            · intro j h
              rcases List.mem_cons.1 h with hh | h2
              · exact absurd hh (by simp)
              · exact ih3 j h2
            · rw [authIds_cons_call]
              exact ih4
      | sslError =>
          rw [ho] at step
          dsimp only [] at step
          by_cases hn : n = 0
          · rw [step, if_neg (by simp [hn])]
            exact ids_single reqId st ai _ _
          · rw [step, if_pos hn]
            obtain ⟨ih1, ih2, ih3, ih4⟩ := ih (attIdx + 1) st ai hreq
            refine ⟨ih1, ?_, ?_, ?_⟩
            · intro i tok h
              rcases List.mem_cons.1 h with hh | h2
              · injection hh
              · exact ih2 i tok h2
            · intro j h
              rcases List.mem_cons.1 h with hh | h2
              · exact absurd hh (by simp)
              · exact ih3 j h2
            · rw [authIds_cons_call]
              exact ih4
      | requestError =>
          rw [ho] at step
          dsimp only [] at step
          by_cases hn : n = 0
          · rw [step, if_neg (by simp [hn])]
            exact ids_single reqId st ai _ _
          · rw [step, if_pos hn]
            obtain ⟨ih1, ih2, ih3, ih4⟩ := ih (attIdx + 1) st ai hreq
            refine ⟨ih1, ?_, ?_, ?_⟩
            · intro i tok h
              rcases List.mem_cons.1 h with hh | h2
              · injection hh
              · exact ih2 i tok h2
            · intro j h
              rcases List.mem_cons.1 h with hh | h2
              · exact absurd hh (by simp)
              · exact ih3 j h2
            · rw [authIds_cons_call]
              exact ih4
      | jsonDecodeError =>
          rw [ho] at step
          dsimp only [] at step
          rw [step]
          exact ids_single reqId st ai _ _
      | otherError =>
          rw [ho] at step
          dsimp only [] at step
          by_cases hn : n = 0
          · rw [step, if_neg (by simp [hn])]
            exact ids_single reqId st ai _ _
          · rw [step, if_pos hn]
            obtain ⟨ih1, ih2, ih3, ih4⟩ := ih (attIdx + 1) st ai hreq
            refine ⟨ih1, ?_, ?_, ?_⟩
            · intro i tok h
              rcases List.mem_cons.1 h with hh | h2
              · injection hh
              · exact ih2 i tok h2
            · intro j h
              rcases List.mem_cons.1 h with hh | h2
              · exact absurd hh (by simp)
              · exact ih3 j h2
            · rw [authIds_cons_call]
              exact ih4

/-- C9: the request sequence number never decreases across a call; every
request identifier used by a call (by its own attempts or by its
authentication sub-calls) is freshly drawn from the open-closed interval
between the entry and exit sequence numbers, so no identifier is ever
reused across calls; all transmission attempts of one call share that
call's single identifier; an authentication sub-call never reuses the
surrounding call's identifier; and successive authentication sub-calls use
strictly increasing identifiers. -/
theorem C9_request_id_uniqueness (isPrivate : Bool) (oracle authOracle : Nat → Outcome)
    (tokenOf : Nat → Option Nat) (expiresIn : Nat → ℚ) (now : ℚ) (retryTimes : Nat)
    (st : ClientState) (ai : Nat) :
    st.requestId ≤ (makeRequest isPrivate oracle authOracle tokenOf expiresIn now
        retryTimes st ai).2.1.requestId
    ∧ (∀ i ∈ allIds (makeRequest isPrivate oracle authOracle tokenOf expiresIn now
          retryTimes st ai).2.2.2,
        st.requestId < i
          ∧ i ≤ (makeRequest isPrivate oracle authOracle tokenOf expiresIn now
              retryTimes st ai).2.1.requestId)
    ∧ (∀ i tok i' tok', ClientEvent.callAttempt i tok
          ∈ (makeRequest isPrivate oracle authOracle tokenOf expiresIn now
              retryTimes st ai).2.2.2 →
        ClientEvent.callAttempt i' tok'
          ∈ (makeRequest isPrivate oracle authOracle tokenOf expiresIn now
              retryTimes st ai).2.2.2 → i = i')
    ∧ (∀ i tok j, ClientEvent.callAttempt i tok
          ∈ (makeRequest isPrivate oracle authOracle tokenOf expiresIn now
              retryTimes st ai).2.2.2 →
        ClientEvent.authAttempt j
          ∈ (makeRequest isPrivate oracle authOracle tokenOf expiresIn now
              retryTimes st ai).2.2.2 → i ≠ j)
    ∧ List.Pairwise (· < ·)
        (authIds (makeRequest isPrivate oracle authOracle tokenOf expiresIn now
          retryTimes st ai).2.2.2) := by
  have hA1 := authenticate_requestId authOracle tokenOf expiresIn now st ai
  have hAe := authenticate_events authOracle tokenOf expiresIn now st ai
  simp only [makeRequest]
  by_cases hc : (isPrivate = true ∧ (st.token = none ∨ st.tokenExpiresAt ≤ now))
  · rw [if_pos hc]
    generalize hA : authenticate authOracle tokenOf expiresIn now st ai = A at hA1 hAe ⊢
    by_cases hok : A.2.1 = true
    · rw [hok, if_pos rfl]
      obtain ⟨L1, L2, L3, L4⟩ := attemptLoop_ids isPrivate authOracle tokenOf expiresIn
        now oracle (A.1.requestId + 1) retryTimes 0
        { A.1 with requestId := A.1.requestId + 1 } A.2.2.2 (le_refl _)
      rw [hAe]
      dsimp only [] at L1 L2 L3 L4 ⊢
      refine ⟨by omega, ?_, ?_, ?_, ?_⟩
      · intro i hi
        rw [allIds_append] at hi
        rcases List.mem_append.1 hi with h1 | h2
        · simp only [allIds, List.map_cons, List.map_nil, List.mem_singleton] at h1
          subst h1
          constructor
          · omega
          · omega
        · rcases (mem_allIds _ _).1 h2 with ⟨tok, hcall⟩ | hauth
          · have hi2 := L2 i tok hcall
            constructor
            · omega
            · omega
          · obtain ⟨hlo, hhi⟩ := L3 i hauth
            have hlo' : A.1.requestId + 1 < i := hlo
            constructor
            · omega
            · exact hhi
      · intro i tok i' tok' h1 h2
        have hc1 : ClientEvent.callAttempt i tok
            ∈ (attemptLoop isPrivate (authenticate authOracle tokenOf expiresIn now)
                oracle (A.1.requestId + 1) retryTimes 0
                { token := A.1.token, tokenExpiresAt := A.1.tokenExpiresAt,
                  requestId := A.1.requestId + 1 } A.2.2.2).2.2.2 := by
          rcases List.mem_append.1 h1 with hx | hx
          · simp at hx
          · exact hx
        have hc2 : ClientEvent.callAttempt i' tok'
            ∈ (attemptLoop isPrivate (authenticate authOracle tokenOf expiresIn now)
                oracle (A.1.requestId + 1) retryTimes 0
                { token := A.1.token, tokenExpiresAt := A.1.tokenExpiresAt,
                  requestId := A.1.requestId + 1 } A.2.2.2).2.2.2 := by
          rcases List.mem_append.1 h2 with hx | hx
          · simp at hx
          · exact hx
        rw [L2 i tok hc1, L2 i' tok' hc2]
      · intro i tok j h1 h2
        have hc1 : ClientEvent.callAttempt i tok
            ∈ (attemptLoop isPrivate (authenticate authOracle tokenOf expiresIn now)
                oracle (A.1.requestId + 1) retryTimes 0
                { token := A.1.token, tokenExpiresAt := A.1.tokenExpiresAt,
                  requestId := A.1.requestId + 1 } A.2.2.2).2.2.2 := by
          rcases List.mem_append.1 h1 with hx | hx
          · simp at hx
          · exact hx
        have hi := L2 i tok hc1
        rcases List.mem_append.1 h2 with hx | hx
        · simp only [List.mem_singleton] at hx
          injection hx with hj
          omega
        · have hj : A.1.requestId + 1 < j := (L3 j hx).1
          omega
      · rw [authIds_append, authIds_cons_auth]
        have hnil : authIds ([] : List ClientEvent) = [] := rfl
        rw [hnil]
        rw [List.cons_append, List.nil_append]
        refine List.pairwise_cons.2 ⟨?_, L4⟩
        intro x hx
        have hlo : A.1.requestId + 1 < x := (L3 x ((mem_authIds _ _).1 hx)).1
        omega
    · rw [if_neg (by simp [hok])]
      rw [hAe]
      dsimp only []
      refine ⟨by omega, ?_, ?_, ?_, ?_⟩
      · intro i hi
        simp only [allIds, List.map_cons, List.map_nil, List.mem_singleton] at hi
        subst hi
        constructor
        · omega
        · omega
      · intro i tok i' tok' h1 h2
        simp at h1
      · intro i tok j h1 h2
        simp at h1
      · simp [authIds]
  · rw [if_neg hc]
    obtain ⟨L1, L2, L3, L4⟩ := attemptLoop_ids isPrivate authOracle tokenOf expiresIn now
      oracle (st.requestId + 1) retryTimes 0 { st with requestId := st.requestId + 1 } ai
      (le_refl _)
    dsimp only [] at L1 L2 L3 L4 ⊢
    refine ⟨by omega, ?_, ?_, ?_, ?_⟩
    · intro i hi
      rcases (mem_allIds _ _).1 hi with ⟨tok, hcall⟩ | hauth
      · have hi2 := L2 i tok hcall
        constructor
        · omega
        · omega
      · obtain ⟨hlo, hhi⟩ := L3 i hauth
        have hlo' : st.requestId + 1 < i := hlo
        constructor
        · omega
        · exact hhi
    · intro i tok i' tok' h1 h2
      rw [L2 i tok h1, L2 i' tok' h2]
    · intro i tok j h1 h2
      have hi := L2 i tok h1
      have hj : st.requestId + 1 < j := (L3 j h2).1
      omega
    · exact L4

/-- Configuration isolating the volatility index's absolute-value check:
the source defaults, with the 5-minute-change bounds set high enough that
only the absolute alert can fire. -/
def dvolOnlyConfig : MonitorConfig :=
  { cooldownSeconds := 300
    enableAlert := true
    gammaLevel1 := 0.0001
    gammaLevel2 := 0.0005
    gammaLevel3 := 0.001
    vegaLevel1 := 10
    vegaLevel2 := 30
    vegaLevel3 := 50
    dvolAbsThreshold := 60
    dvolPctChange5m := 1000000
    dvolAbsChange5m := 1000000
    dvolSpecificValues := []
    dvolSpecificTolerance := 0.5 }

/-- C2 counterexample: the volatility index's absolute-level check is not a
three-tier highest-match classification.  With the absolute threshold at
its default 60, the evaluator delivers the very same severity-less alert
for a magnitude of 61 and for a magnitude of 10000 (both cycles eligible,
enabled and delivered, with only the absolute alert able to fire), even
though under the claimed rule every ascending tier triple spanning these
magnitudes — for instance 60 < 80 < 100 — matches 61 as light and 10000 as
heavy, two different severities.  The index's check has one configured
threshold and no tiers. -/
theorem C2_counterexample :
    (checkDvol dvolOnlyConfig
        [("dvol", StoredData.series none [⟨StoreValue.num 50, 800⟩])] 61 1000
        (fun _ => true)).2 = [AlertEvent.dvolAbsValue]
    ∧ (checkDvol dvolOnlyConfig
        [("dvol", StoredData.series none [⟨StoreValue.num 50, 800⟩])] 10000 1000
        (fun _ => true)).2 = [AlertEvent.dvolAbsValue]
    ∧ classifyLevel 61 60 80 100 = some Severity.light
    ∧ classifyLevel 10000 60 80 100 = some Severity.heavy
    ∧ Severity.light ≠ Severity.heavy := by
  have hprev : dvolPrevious
      [("dvol", StoredData.series none [⟨StoreValue.num 50, 800⟩])] 1000 = some 50 := by
    norm_num [dvolPrevious, getHistory, alookup, List.insertionSort, asNum]
  have h61 : (checkDvol dvolOnlyConfig
      [("dvol", StoredData.series none [⟨StoreValue.num 50, 800⟩])] 61 1000
      (fun _ => true)).2 = [AlertEvent.dvolAbsValue] := by
    unfold checkDvol
    rw [hprev]
    unfold checkDvolBody
    cases hms : matchedSpecificValue dvolOnlyConfig 61 with
    | some target => simp [matchedSpecificValue, dvolOnlyConfig] at hms
    | none =>
        simp only []
        rw [if_pos (show dvolAbsValueCheck dvolOnlyConfig.dvolAbsThreshold 61 = true
          by decide)]
        rw [if_neg (show ¬ dvolChangeCheck dvolOnlyConfig 50 61 = true by
          norm_num [dvolChangeCheck, pctChange, absChange, dvolOnlyConfig, abs_le])]
        rfl
  have h2 : (checkDvol dvolOnlyConfig
      [("dvol", StoredData.series none [⟨StoreValue.num 50, 800⟩])] 10000 1000
      (fun _ => true)).2 = [AlertEvent.dvolAbsValue] := by
    unfold checkDvol
    rw [hprev]
    unfold checkDvolBody
    cases hms : matchedSpecificValue dvolOnlyConfig 10000 with
    | some target => simp [matchedSpecificValue, dvolOnlyConfig] at hms
    | none =>
        simp only []
        rw [if_pos (show dvolAbsValueCheck dvolOnlyConfig.dvolAbsThreshold 10000 = true
          by decide)]
        rw [if_neg (show ¬ dvolChangeCheck dvolOnlyConfig 50 10000 = true by
          norm_num [dvolChangeCheck, pctChange, absChange, dvolOnlyConfig, abs_le])]
        rfl
  exact ⟨h61, h2, by decide, by decide, by decide⟩
